import Mathlib

/-!
TextureSpaceDecals: a shallow embedding of `src/main.cpp`.

The application object of `main.cpp` is embedded as a record `App` and every
member function as a pure function on that record.  The GL calls act on the
record `Gpu` held in `App.gpu`.

Conventions of the embedding.

* `float`/`double` values are exact rationals (`ℚ`); the one place where the
  source works with `INFINITY` (the ray parameter `tfar` and `m_hit_distance`)
  uses `Float32`, a rational or `+∞`.  NaN and `-∞` are not modelled.
* Functions of external libraries that are not rational (square roots,
  trigonometry, matrix inversion), the camera class of the framework and the
  ray intersector are fields of `Lib`; every theorem quantifies over them.
* The GPU is symbolic: an image is the list of draw calls that reached it since
  its last clear, a draw call records the pipeline state it was issued under.
* `App.trace` is a ghost log: each rendering pass appends its name when it runs.
* `frame_head`, `decal_apply_cycle`, `frame_tail`, `debug_draw`, `pick_ndc`,
  `pick_ray_dir` and `pick_ray` name consecutive statements of `update` and
  `mouse_pressed`.
-/

set_option autoImplicit false

namespace TextureSpaceDecals

/-! ## Vectors and matrices (glm) -/

/-- The type glm::vec3. -/
structure Vec3 where
  x : ℚ
  y : ℚ
  z : ℚ
  deriving DecidableEq

/-- The type glm::vec4. -/
structure Vec4 where
  x : ℚ
  y : ℚ
  z : ℚ
  w : ℚ
  deriving DecidableEq

/-- The type glm::mat4, stored by columns as in glm: `c0 .. c3` are `m[0] .. m[3]`. -/
structure Mat4 where
  c0 : Vec4
  c1 : Vec4
  c2 : Vec4
  c3 : Vec4
  deriving DecidableEq

namespace Vec3

/-- Component-wise addition, `a + b`. -/
def add (a b : Vec3) : Vec3 := ⟨a.x + b.x, a.y + b.y, a.z + b.z⟩

/-- Component-wise subtraction, `a - b`. -/
def sub (a b : Vec3) : Vec3 := ⟨a.x - b.x, a.y - b.y, a.z - b.z⟩

/-- Vector times scalar, `v * s`. -/
def scale (v : Vec3) (s : ℚ) : Vec3 := ⟨v.x * s, v.y * s, v.z * s⟩

/-- Unary minus, `-v`. -/
def neg (v : Vec3) : Vec3 := ⟨-v.x, -v.y, -v.z⟩

/-- The function glm::dot. -/
def dot (a b : Vec3) : ℚ := a.x * b.x + a.y * b.y + a.z * b.z

/-- The function glm::cross. -/
def cross (a b : Vec3) : Vec3 :=
  ⟨a.y * b.z - b.y * a.z, a.z * b.x - b.z * a.x, a.x * b.y - b.x * a.y⟩

end Vec3

namespace Vec4

/-- Component-wise addition. -/
def add (a b : Vec4) : Vec4 := ⟨a.x + b.x, a.y + b.y, a.z + b.z, a.w + b.w⟩

/-- Vector times scalar. -/
def scale (v : Vec4) (s : ℚ) : Vec4 := ⟨v.x * s, v.y * s, v.z * s, v.w * s⟩

/-- The conversion glm::vec3(v): drops `w`. -/
def xyz (v : Vec4) : Vec3 := ⟨v.x, v.y, v.z⟩

/-- The constructor glm::vec4(v, w). -/
def ofVec3 (v : Vec3) (w : ℚ) : Vec4 := ⟨v.x, v.y, v.z, w⟩

end Vec4

namespace Mat4

/-- The matrix glm::mat4(1.0f). -/
def identity : Mat4 := ⟨⟨1, 0, 0, 0⟩, ⟨0, 1, 0, 0⟩, ⟨0, 0, 1, 0⟩, ⟨0, 0, 0, 1⟩⟩

/-- Matrix times column vector, `m * v`. -/
def mulVec (m : Mat4) (v : Vec4) : Vec4 :=
  ((m.c0.scale v.x).add (m.c1.scale v.y)).add ((m.c2.scale v.z).add (m.c3.scale v.w))

/-- Matrix product, `a * b`. -/
def mul (a b : Mat4) : Mat4 := ⟨a.mulVec b.c0, a.mulVec b.c1, a.mulVec b.c2, a.mulVec b.c3⟩

end Mat4

/-- A float that is either finite or the constant INFINITY. -/
inductive Float32 where
  | fin (q : ℚ)
  | inf
  deriving DecidableEq

/-- The constant INFINITY of math.h. -/
def INFINITY : Float32 := Float32.inf

/-- The macro CAMERA_FAR_PLANE. -/
def CAMERA_FAR_PLANE : ℚ := 1000

/-- The macro PROJECTOR_BACK_OFF_DISTANCE. -/
def PROJECTOR_BACK_OFF_DISTANCE : ℚ := 10

/-- The macro ALBEDO_TEXTURE_SIZE. -/
def ALBEDO_TEXTURE_SIZE : Int := 4096

/-- The macro DEPTH_TEXTURE_SIZE. -/
def DEPTH_TEXTURE_SIZE : Int := 512

/-- The struct GlobalUniforms. -/
structure GlobalUniforms where
  view_proj : Mat4
  light_view_proj : Mat4
  cam_pos : Vec4
  deriving DecidableEq

/-! ## glm functions with rational results -/

/-- The function glm::ortho(left, right, bottom, top, zNear, zFar)
(right-handed, depth range -1 to 1, the glm default). -/
def glm_ortho (left right bottom top zNear zFar : ℚ) : Mat4 :=
  ⟨⟨2 / (right - left), 0, 0, 0⟩,
   ⟨0, 2 / (top - bottom), 0, 0⟩,
   ⟨0, 0, -(2 / (zFar - zNear)), 0⟩,
   ⟨-((right + left) / (right - left)), -((top + bottom) / (top - bottom)),
    -((zFar + zNear) / (zFar - zNear)), 1⟩⟩

/-! ## External collaborators -/

/-- The fields of dw::Camera that main.cpp reads. -/
structure Camera where
  m_projection : Mat4
  m_view : Mat4
  m_position : Vec3
  m_forward : Vec3
  m_right : Vec3
  deriving DecidableEq

/-- The struct RTCRay, restricted to the fields main.cpp writes. -/
structure RTCRay where
  org_x : ℚ
  org_y : ℚ
  org_z : ℚ
  tnear : ℚ
  dir_x : ℚ
  dir_y : ℚ
  dir_z : ℚ
  tfar : Float32
  mask : Nat
  flags : Nat
  deriving DecidableEq

/-- The struct RTCHit, restricted to the fields main.cpp reads or writes. -/
structure RTCHit where
  Ng_x : ℚ
  Ng_y : ℚ
  Ng_z : ℚ
  geomID : Nat
  instID0 : Nat
  deriving DecidableEq

/-- The struct RTCRayHit. -/
structure RTCRayHit where
  ray : RTCRay
  hit : RTCHit
  deriving DecidableEq

/-- The constant RTC_INVALID_GEOMETRY_ID, `((unsigned int)-1)`. -/
def RTC_INVALID_GEOMETRY_ID : Nat := 4294967295

/-- The five shader programs of main.cpp. -/
inductive Program where
  | texture_init
  | decal
  | mesh
  | visualize
  | depth
  deriving DecidableEq

/-- The uniforms main.cpp sets by name. -/
inductive Uniform where
  | u_Model
  | s_Texture
  | s_Decal
  | s_Depth
  deriving DecidableEq

/-- What main.cpp calls but does not define: glm functions whose results are not
rational, the framework camera, the Embree intersector over the committed scene
and the capability flags of the GL loader.  `rtcIntersect1` receives the ray
half of the query (the hit half is output only, main.cpp resets its ids before
every call) and returns the updated query.  `set_uniform p u` is the result of
`p->set_uniform(u, ..)` for a sampler `u`, which the source tests before it binds
a texture. -/
structure Lib where
  normalize : Vec3 → Vec3
  inverse : Mat4 → Mat4
  cos : ℚ → ℚ
  sin : ℚ → ℚ
  radians : ℚ → ℚ
  rtcIntersect1 : RTCRay → RTCRayHit
  camera_new : ℚ → ℚ → ℚ → ℚ → Vec3 → Vec3 → Camera
  set_translation_delta : Camera → Vec3 → ℚ → Camera
  set_rotatation_delta : Camera → Vec3 → Camera
  camera_update : Camera → Camera
  update_projection : Camera → ℚ → ℚ → ℚ → ℚ → Camera
  set_uniform : Program → Uniform → Bool
  GLAD_GL_NV_conservative_raster : Bool
  GLAD_GL_INTEL_conservative_rasterization : Bool

/-- The function glm::rotate(m, angle, v). -/
def glm_rotate (lib : Lib) (m : Mat4) (angle : ℚ) (v : Vec3) : Mat4 :=
  let c := lib.cos angle
  let s := lib.sin angle
  let axis := lib.normalize v
  let temp := axis.scale (1 - c)
  let r00 := c + temp.x * axis.x
  let r01 := temp.x * axis.y + s * axis.z
  let r02 := temp.x * axis.z - s * axis.y
  let r10 := temp.y * axis.x - s * axis.z
  let r11 := c + temp.y * axis.y
  let r12 := temp.y * axis.z + s * axis.x
  let r20 := temp.z * axis.x + s * axis.y
  let r21 := temp.z * axis.y - s * axis.x
  let r22 := c + temp.z * axis.z
  ⟨((m.c0.scale r00).add (m.c1.scale r01)).add (m.c2.scale r02),
   ((m.c0.scale r10).add (m.c1.scale r11)).add (m.c2.scale r12),
   ((m.c0.scale r20).add (m.c1.scale r21)).add (m.c2.scale r22),
   m.c3⟩

/-- The function glm::lookAt(eye, center, up) (right-handed, the glm default). -/
def glm_lookAt (lib : Lib) (eye center up : Vec3) : Mat4 :=
  let f := lib.normalize (center.sub eye)
  let s := lib.normalize (f.cross up)
  let u := s.cross f
  ⟨⟨s.x, u.x, -f.x, 0⟩,
   ⟨s.y, u.y, -f.y, 0⟩,
   ⟨s.z, u.z, -f.z, 0⟩,
   ⟨-(s.dot eye), -(u.dot eye), f.dot eye, 1⟩⟩

/-! ## Scene data -/

/-- The struct dw::SubMesh, restricted to the fields main.cpp reads. -/
structure SubMesh where
  index_count : Nat
  base_index : Nat
  base_vertex : Nat
  deriving DecidableEq

/-- The part of dw::Mesh main.cpp reads: the vertex positions
(`vertices()[i].position`), the index array (`indices()`, unsigned 32-bit) and
the submesh table.  `vertex_count()` and `index_count()` are the lengths of the
first two. -/
structure Mesh where
  vertices : List Vec3
  indices : List Nat
  sub_meshes : List SubMesh
  deriving DecidableEq

/-- A decal image, as main.cpp sees it: its `width()` and `height()`. -/
structure DecalTexture where
  width : Nat
  height : Nat
  deriving DecidableEq

/-! ## Symbolic GPU -/

/-- The render targets main.cpp binds: `m_albedo_fbo`, `m_depth_fbo`, framebuffer 0. -/
inductive Target where
  | albedo_fbo
  | depth_fbo
  | screen
  deriving DecidableEq

/-- The arguments main.cpp passes to glEnable and glDisable. -/
inductive Cap where
  | GL_DEPTH_TEST
  | GL_BLEND
  | GL_CULL_FACE
  | GL_CONSERVATIVE_RASTERIZATION_NV
  | GL_INTEL_conservative_rasterization
  deriving DecidableEq

/-- For each argument of glEnable: was it last enabled or disabled. -/
structure Caps where
  depth_test : Bool
  blend : Bool
  cull_face : Bool
  conservative_rasterization_nv : Bool
  intel_conservative_rasterization : Bool
  deriving DecidableEq

/-- A texture bound to a sampler. -/
inductive TexRef where
  | decal (i : Int)
  | albedo
  | depth
  deriving DecidableEq

/-- One draw call, with the pipeline state it was issued under. -/
structure DrawCall where
  program : Option Program
  caps : Caps
  u_Model : Mat4
  uniforms : GlobalUniforms
  unit0 : Option TexRef
  unit1 : Option TexRef
  indexed : Bool
  count : Nat
  base_index : Nat
  base_vertex : Nat
  deriving DecidableEq

/-- The contents of a render target: whether it was cleared since its storage
was allocated, and the draw calls that reached it since. -/
structure Image where
  cleared : Bool
  draws : List DrawCall
  deriving DecidableEq

/-- A dw::Texture2D object: its identity, its level 0 and the level 0 its mip
chain was last generated from. -/
structure Texture2D where
  id : Nat
  base : Image
  mips : Option Image
  deriving DecidableEq

/-- The arguments main.cpp passes to glCullFace (GL_NONE: face culling off). -/
inductive CullMode where
  | GL_NONE
  | GL_BACK
  deriving DecidableEq

/-- The GL context state main.cpp sets, the contents of `m_global_ubo`, the
screen, and the texture objects the members `m_albedo_texture` and
`m_depth_texture` own (the attachments of `m_albedo_fbo` and `m_depth_fbo`).
The uniform buffer is bound to the same binding point by every pass
(`m_global_ubo->bind_base(0)`); that call is not recorded. -/
structure Gpu where
  caps : Caps
  cull_mode : CullMode
  framebuffer : Target
  viewport : Int × Int × Int × Int
  program : Option Program
  u_Model : Mat4
  unit0 : Option TexRef
  unit1 : Option TexRef
  ubo : GlobalUniforms
  screen : Image
  m_albedo_texture : Texture2D
  m_depth_texture : Texture2D
  next_texture_id : Nat
  deriving DecidableEq

/-- The rendering passes and resource operations recorded in `App.trace`. -/
inductive Event where
  | create_framebuffers
  | init_texture
  | render_depth_map
  | apply_decals
  | generate_mipmaps
  | render_lit_scene
  | visualize_albedo_map
  | debug_sphere
  | debug_frustum
  | debug_render
  deriving DecidableEq

/-! ## The application object -/

/-- The members of class TextureSpaceDecals (and the members of its base class
dw::Application that main.cpp reads: `m_width`, `m_height`, `m_delta`,
`m_mouse_delta_x`, `m_mouse_delta_y`), the symbolic GPU and the ghost trace. -/
structure App where
  m_width : Nat
  m_height : Nat
  m_delta : ℚ
  m_mouse_delta_x : ℚ
  m_mouse_delta_y : ℚ
  gpu : Gpu
  trace : List Event
  m_decal_textures : List DecalTexture
  m_main_camera : Camera
  m_global_uniforms : GlobalUniforms
  m_mesh : Mesh
  m_transform : Mat4
  m_mouse_look : Bool
  m_heading_speed : ℚ
  m_sideways_speed : ℚ
  m_camera_sensitivity : ℚ
  m_camera_speed : ℚ
  m_enable_dither : Bool
  m_debug_gui : Bool
  m_hit_pos : Vec3
  m_hit_normal : Vec3
  m_hit_distance : Float32
  m_projector_pos : Vec3
  m_projector_dir : Vec3
  m_projector_view : Mat4
  m_projector_proj : Mat4
  m_projector_size : ℚ
  m_projector_rotation : ℚ
  m_requires_update : Bool
  m_visualize_albedo_map : Bool
  m_visualize_projection_frustum : Bool
  m_visualize_hit_point : Bool
  m_enable_conservative_raster : Bool
  m_randomize_decals : Bool
  m_selected_decal : Int
  m_camera_x : ℚ
  m_camera_y : ℚ
  deriving DecidableEq

/-- The default member initialisers of the class (main.cpp lines 863 to 897);
every other member keeps the indeterminate value it has in `raw`. -/
def construct (raw : App) : App :=
  { raw with
    m_mouse_look := false
    m_heading_speed := 0
    m_sideways_speed := 0
    m_camera_sensitivity := 1 / 20
    m_camera_speed := 1 / 50
    m_enable_dither := true
    m_debug_gui := true
    m_hit_distance := INFINITY
    m_projector_size := 10
    m_projector_rotation := 0
    m_requires_update := false
    m_visualize_albedo_map := true
    m_visualize_projection_frustum := false
    m_visualize_hit_point := false
    m_enable_conservative_raster := true
    m_randomize_decals := true
    m_selected_decal := 0 }

/-- Append an event to the ghost trace. -/
def log (e : Event) (st : App) : App :=
  { st with trace := st.trace ++ [e] }

/-! ## GL calls -/

/-- Record `v` as the state of capability `cap`. -/
def Caps.set (c : Caps) (cap : Cap) (v : Bool) : Caps :=
  match cap with
  | Cap.GL_DEPTH_TEST => { c with depth_test := v }
  | Cap.GL_BLEND => { c with blend := v }
  | Cap.GL_CULL_FACE => { c with cull_face := v }
  | Cap.GL_CONSERVATIVE_RASTERIZATION_NV => { c with conservative_rasterization_nv := v }
  | Cap.GL_INTEL_conservative_rasterization => { c with intel_conservative_rasterization := v }

/-- The call glEnable(cap). -/
def glEnable (cap : Cap) (g : Gpu) : Gpu :=
  { g with caps := g.caps.set cap true }

/-- The call glDisable(cap). -/
def glDisable (cap : Cap) (g : Gpu) : Gpu :=
  { g with caps := g.caps.set cap false }

/-- The call glCullFace(mode). -/
def glCullFace (mode : CullMode) (g : Gpu) : Gpu :=
  { g with cull_mode := mode }

/-- The calls `fbo->bind()` and `glBindFramebuffer(GL_FRAMEBUFFER, 0)`. -/
def bind_framebuffer (t : Target) (g : Gpu) : Gpu :=
  { g with framebuffer := t }

/-- The call glViewport(x, y, w, h). -/
def glViewport (x y w h : Int) (g : Gpu) : Gpu :=
  { g with viewport := (x, y, w, h) }

/-- The call `program->use()`. -/
def use_program (p : Program) (g : Gpu) : Gpu :=
  { g with program := some p }

/-- The call `program->set_uniform("u_Model", model)`. -/
def set_u_Model (model : Mat4) (g : Gpu) : Gpu :=
  { g with u_Model := model }

/-- The call `texture->bind(0)`. -/
def bind_unit0 (t : TexRef) (g : Gpu) : Gpu :=
  { g with unit0 := some t }

/-- The call `texture->bind(1)`. -/
def bind_unit1 (t : TexRef) (g : Gpu) : Gpu :=
  { g with unit1 := some t }

/-- An image right after a clear. -/
def Image.clear : Image := ⟨true, []⟩

/-- An image with one more draw call. -/
def Image.draw (img : Image) (call : DrawCall) : Image :=
  { img with draws := img.draws ++ [call] }

/-- The call glClear(mask) on the bound target: `color` and `depth` say which
bits the mask has.  `m_albedo_fbo` has a colour attachment only, `m_depth_fbo`
a depth attachment only.  The clear values main.cpp sets are constants
(colour 0,0,0,1 and depth 1.0) and are not recorded. -/
def glClear (color depth : Bool) (g : Gpu) : Gpu :=
  match g.framebuffer with
  | Target.albedo_fbo =>
    if color then { g with m_albedo_texture := { g.m_albedo_texture with base := Image.clear } }
    else g
  | Target.depth_fbo =>
    if depth then { g with m_depth_texture := { g.m_depth_texture with base := Image.clear } }
    else g
  | Target.screen => if color then { g with screen := Image.clear } else g

/-- The draw call the current pipeline state gives. -/
def current_call (indexed : Bool) (count base_index base_vertex : Nat) (g : Gpu) : DrawCall :=
  { program := g.program
    caps := g.caps
    u_Model := g.u_Model
    uniforms := g.ubo
    unit0 := g.unit0
    unit1 := g.unit1
    indexed := indexed
    count := count
    base_index := base_index
    base_vertex := base_vertex }

/-- Send a draw call to the bound target. -/
def emit (call : DrawCall) (g : Gpu) : Gpu :=
  match g.framebuffer with
  | Target.albedo_fbo =>
    { g with m_albedo_texture :=
        { g.m_albedo_texture with base := g.m_albedo_texture.base.draw call } }
  | Target.depth_fbo =>
    { g with m_depth_texture :=
        { g.m_depth_texture with base := g.m_depth_texture.base.draw call } }
  | Target.screen => { g with screen := g.screen.draw call }

/-- The call glDrawElementsBaseVertex(GL_TRIANGLES, count, GL_UNSIGNED_INT,
sizeof(unsigned int) * base_index, base_vertex). -/
def glDrawElementsBaseVertex (count base_index base_vertex : Nat) (g : Gpu) : Gpu :=
  emit (current_call true count base_index base_vertex g) g

/-- The call glDrawArrays(GL_TRIANGLES, first, count). -/
def glDrawArrays (first count : Nat) (g : Gpu) : Gpu :=
  emit (current_call false count first 0 g) g

/-- The call `m_albedo_texture->generate_mipmaps()`. -/
def generate_mipmaps (st : App) : App :=
  log Event.generate_mipmaps
    { st with gpu :=
      { st.gpu with m_albedo_texture :=
        { st.gpu.m_albedo_texture with mips := some st.gpu.m_albedo_texture.base } } }

/-! ## Rendering passes -/

/-- The member function init_texture (main.cpp lines 269 to 321). -/
def init_texture (lib : Lib) (st : App) : App :=
  let st := log Event.init_texture st
  let g := st.gpu
  let g :=
    if st.m_enable_conservative_raster then
      if lib.GLAD_GL_NV_conservative_raster then
        glEnable Cap.GL_CONSERVATIVE_RASTERIZATION_NV g
      else if lib.GLAD_GL_INTEL_conservative_rasterization then
        glEnable Cap.GL_INTEL_conservative_rasterization g
      else g
    else g
  let g := glDisable Cap.GL_DEPTH_TEST g
  let g := glDisable Cap.GL_BLEND g
  let g := glDisable Cap.GL_CULL_FACE g
  let g := bind_framebuffer Target.albedo_fbo g
  let g := glViewport 0 0 ALBEDO_TEXTURE_SIZE ALBEDO_TEXTURE_SIZE g
  let g := glClear true false g
  let g := use_program Program.texture_init g
  let g := set_u_Model st.m_transform g
  let g := st.m_mesh.sub_meshes.foldl
    (fun g submesh =>
      glDrawElementsBaseVertex submesh.index_count submesh.base_index submesh.base_vertex g) g
  let g :=
    if st.m_enable_conservative_raster then
      if lib.GLAD_GL_NV_conservative_raster then
        glDisable Cap.GL_CONSERVATIVE_RASTERIZATION_NV g
      else if lib.GLAD_GL_INTEL_conservative_rasterization then
        glDisable Cap.GL_INTEL_conservative_rasterization g
      else g
    else g
  generate_mipmaps { st with gpu := g }

/-- The member function apply_decals (main.cpp lines 325 to 381). -/
def apply_decals (lib : Lib) (st : App) : App :=
  let st := log Event.apply_decals st
  let g := st.gpu
  let g :=
    if st.m_enable_conservative_raster then
      if lib.GLAD_GL_NV_conservative_raster then
        glEnable Cap.GL_CONSERVATIVE_RASTERIZATION_NV g
      else if lib.GLAD_GL_INTEL_conservative_rasterization then
        glEnable Cap.GL_INTEL_conservative_rasterization g
      else g
    else g
  let g := glDisable Cap.GL_DEPTH_TEST g
  let g := glEnable Cap.GL_BLEND g
  let g := glDisable Cap.GL_CULL_FACE g
  let g := bind_framebuffer Target.albedo_fbo g
  let g := glViewport 0 0 ALBEDO_TEXTURE_SIZE ALBEDO_TEXTURE_SIZE g
  let g := use_program Program.decal g
  let g := set_u_Model st.m_transform g
  let g := st.m_mesh.sub_meshes.foldl
    (fun g submesh =>
      let g :=
        if lib.set_uniform Program.decal Uniform.s_Decal then
          bind_unit0 (TexRef.decal st.m_selected_decal) g
        else g
      let g :=
        if lib.set_uniform Program.decal Uniform.s_Depth then bind_unit1 TexRef.depth g
        else g
      glDrawElementsBaseVertex submesh.index_count submesh.base_index submesh.base_vertex g) g
  let g := glDisable Cap.GL_BLEND g
  let g :=
    if st.m_enable_conservative_raster then
      if lib.GLAD_GL_NV_conservative_raster then
        glDisable Cap.GL_CONSERVATIVE_RASTERIZATION_NV g
      else if lib.GLAD_GL_INTEL_conservative_rasterization then
        glDisable Cap.GL_INTEL_conservative_rasterization g
      else g
    else g
  { st with gpu := g }

/-- The member function render_mesh (main.cpp lines 698 to 717), on the GPU. -/
def render_mesh (lib : Lib) (mesh : Mesh) (model : Mat4) (program : Program) (g : Gpu) : Gpu :=
  let g := set_u_Model model g
  mesh.sub_meshes.foldl
    (fun g submesh =>
      let g :=
        if lib.set_uniform program Uniform.s_Texture then bind_unit0 TexRef.albedo g else g
      glDrawElementsBaseVertex submesh.index_count submesh.base_index submesh.base_vertex g) g

/-- The member function render_scene (main.cpp lines 721 to 756); `fbo` is the
target the pointer argument stands for (the null pointer: the screen). -/
def render_scene (lib : Lib) (fbo : Target) (program : Program) (x y w h : Int)
    (cull_face : CullMode) (clear : Bool) (st : App) : App :=
  let g := st.gpu
  let g := glEnable Cap.GL_DEPTH_TEST g
  let g := glDisable Cap.GL_BLEND g
  let g :=
    if cull_face = CullMode.GL_NONE then glDisable Cap.GL_CULL_FACE g
    else glCullFace cull_face (glEnable Cap.GL_CULL_FACE g)
  let g := bind_framebuffer fbo g
  let g := glViewport x y w h g
  let g := if clear then glClear true true g else g
  let g := use_program program g
  { st with gpu := render_mesh lib st.m_mesh st.m_transform program g }

/-- The member function render_depth_map (main.cpp lines 385 to 388). -/
def render_depth_map (lib : Lib) (st : App) : App :=
  render_scene lib Target.depth_fbo Program.depth 0 0 DEPTH_TEXTURE_SIZE DEPTH_TEXTURE_SIZE
    CullMode.GL_BACK true (log Event.render_depth_map st)

/-- The member function render_lit_scene (main.cpp lines 392 to 395). -/
def render_lit_scene (lib : Lib) (st : App) : App :=
  render_scene lib Target.screen Program.mesh 0 0 st.m_width st.m_height
    CullMode.GL_BACK true (log Event.render_lit_scene st)

/-- The member function visualize_albedo_map (main.cpp lines 399 to 415). -/
def visualize_albedo_map (lib : Lib) (st : App) : App :=
  let st := log Event.visualize_albedo_map st
  let g := st.gpu
  let g := glDisable Cap.GL_DEPTH_TEST g
  let g := glDisable Cap.GL_CULL_FACE g
  let g := glDisable Cap.GL_BLEND g
  let g := glViewport 0 0 512 512 g
  let g := use_program Program.visualize g
  let g :=
    if lib.set_uniform Program.visualize Uniform.s_Texture then bind_unit0 TexRef.albedo g
    else g
  { st with gpu := glDrawArrays 0 3 g }

/-- The member function create_framebuffers (main.cpp lines 539 to 558): two
new texture objects, of constant size, replace the ones the members held. -/
def create_framebuffers (st : App) : App :=
  log Event.create_framebuffers
    { st with gpu :=
      { st.gpu with
        m_albedo_texture := ⟨st.gpu.next_texture_id, ⟨false, []⟩, none⟩
        m_depth_texture := ⟨st.gpu.next_texture_id + 1, ⟨false, []⟩, none⟩
        next_texture_id := st.gpu.next_texture_id + 2 } }

/-- The member function update_global_uniforms (main.cpp lines 760 to 765). -/
def update_global_uniforms (global : GlobalUniforms) (st : App) : App :=
  { st with gpu := { st.gpu with ubo := global } }

/-! ## Projector and camera -/

/-- The element `m_decal_textures[i]`.  Outside the vector the source has no
defined behaviour; the embedding answers with an image of size 0 by 0 there. -/
def decal_texture (st : App) (i : Int) : DecalTexture :=
  if 0 ≤ i then st.m_decal_textures.getD i.toNat ⟨0, 0⟩ else ⟨0, 0⟩

/-- The member function update_transforms (main.cpp lines 769 to 789). -/
def update_transforms (lib : Lib) (camera : Camera) (st : App) : App :=
  let st := { st with m_global_uniforms :=
    { st.m_global_uniforms with
      view_proj := camera.m_projection.mul camera.m_view
      cam_pos := Vec4.ofVec3 camera.m_position 0 } }
  let rotate := Mat4.identity
  let rotate := glm_rotate lib rotate (lib.radians st.m_projector_rotation) st.m_projector_dir
  let rotated_axis := rotate.mulVec ⟨0, 1, 0, 0⟩
  let ratio : ℚ := ((decal_texture st st.m_selected_decal).height : ℚ)
    / ((decal_texture st st.m_selected_decal).width : ℚ)
  let proportionate_height := st.m_projector_size * ratio
  let st := { st with
    m_projector_view := glm_lookAt lib st.m_projector_pos st.m_hit_pos rotated_axis.xyz }
  let st := { st with
    m_projector_proj := glm_ortho (-st.m_projector_size) st.m_projector_size
      (-proportionate_height) proportionate_height (1 / 10) CAMERA_FAR_PLANE }
  if st.m_hit_distance ≠ INFINITY then
    { st with m_global_uniforms :=
      { st.m_global_uniforms with
        light_view_proj := st.m_projector_proj.mul st.m_projector_view } }
  else st

/-- The member function update_camera (main.cpp lines 793 to 822). -/
def update_camera (lib : Lib) (st : App) : App :=
  let current := st.m_main_camera
  let forward_delta := st.m_heading_speed * st.m_delta
  let right_delta := st.m_sideways_speed * st.m_delta
  let current := lib.set_translation_delta current current.m_forward forward_delta
  let current := lib.set_translation_delta current current.m_right right_delta
  let st := { st with m_camera_x := st.m_mouse_delta_x * st.m_camera_sensitivity }
  let st := { st with m_camera_y := st.m_mouse_delta_y * st.m_camera_sensitivity }
  let current :=
    if st.m_mouse_look then lib.set_rotatation_delta current ⟨st.m_camera_y, st.m_camera_x, 0⟩
    else lib.set_rotatation_delta current ⟨0, 0, 0⟩
  let current := lib.camera_update current
  update_transforms lib current { st with m_main_camera := current }

/-- The member function create_camera (main.cpp lines 689 to 694). -/
def create_camera (lib : Lib) (st : App) : App :=
  let camera := lib.camera_new 60 (1 / 10) CAMERA_FAR_PLANE
    ((st.m_width : ℚ) / (st.m_height : ℚ)) ⟨150, 20, 0⟩ ⟨-1, 0, 0⟩
  let camera := lib.set_rotatation_delta camera ⟨0, -90, 0⟩
  { st with m_main_camera := lib.camera_update camera }

/-! ## Configuration surface -/

/-- What the user does to the debug window during one frame: the value a drag
widget is dragged to, the list item clicked, which checkboxes and buttons are
clicked. -/
structure UiInput where
  decal_rotation : Option ℚ
  decal_size : Option ℚ
  selected_decal : Option Int
  randomize_decals : Bool
  visualize_projection_frustum : Bool
  visualize_hit_point : Bool
  visualize_albedo_map : Bool
  conservative_rasterization : Bool
  clear_texture : Bool
  deriving DecidableEq

/-- A frame in which the user touches nothing. -/
def UiInput.idle : UiInput :=
  ⟨none, none, none, false, false, false, false, false, false⟩

/-- Modelled from the spec: the drag widgets of the configuration surface
(`half_width: float ∈ [0.1,20]`, `rotation_degrees: float ∈ [-180,180]`).
ImGui::DragFloat is not under src/; it stores the value the user drags to,
clamped to the range it is given, and leaves the variable alone otherwise. -/
def DragFloat (v : ℚ) (dragged : Option ℚ) (v_min v_max : ℚ) : ℚ :=
  match dragged with
  | none => v
  | some x => max v_min (min x v_max)

/-- Modelled from the spec: the decal selector of the configuration surface
(`selected_decal_index: int ∈ [0,N)`).  ImGui::ListBox is not under src/; it
stores the index of the item the user clicks, one of `items_count` items. -/
def ListBox (current_item : Int) (clicked : Option Int) (items_count : Int) : Int :=
  match clicked with
  | none => current_item
  | some i => if 0 ≤ i ∧ i < items_count then i else current_item

/-- Modelled from the spec: the boolean switches of the configuration surface.
ImGui::Checkbox is not under src/; a click flips the variable. -/
def Checkbox (v : Bool) (clicked : Bool) : Bool :=
  if clicked then !v else v

/-- The member function ui (main.cpp lines 572 to 597).  The advisory text of its
last lines draws into the debug window only and is not recorded. -/
def ui (lib : Lib) (inp : UiInput) (st : App) : App :=
  let st :=
    if !st.m_randomize_decals then
      let st := { st with
        m_projector_rotation := DragFloat st.m_projector_rotation inp.decal_rotation (-180) 180 }
      let st := { st with
        m_projector_size := DragFloat st.m_projector_size inp.decal_size (1 / 10) 20 }
      { st with m_selected_decal := ListBox st.m_selected_decal inp.selected_decal 4 }
    else st
  let st := { st with m_randomize_decals := Checkbox st.m_randomize_decals inp.randomize_decals }
  let st := { st with
    m_visualize_projection_frustum := Checkbox st.m_visualize_projection_frustum inp.visualize_projection_frustum }
  let st := { st with
    m_visualize_hit_point := Checkbox st.m_visualize_hit_point inp.visualize_hit_point }
  let st := { st with
    m_visualize_albedo_map := Checkbox st.m_visualize_albedo_map inp.visualize_albedo_map }
  let st := { st with
    m_enable_conservative_raster := Checkbox st.m_enable_conservative_raster inp.conservative_rasterization }
  if inp.clear_texture then init_texture lib st else st

/-! ## Frame and event handlers -/

/-- The decal-apply cycle of update (main.cpp lines 82 to 88). -/
def decal_apply_cycle (lib : Lib) (st : App) : App :=
  if st.m_requires_update then
    let st := { st with m_requires_update := false }
    let st := render_depth_map lib st
    let st := apply_decals lib st
    generate_mipmaps st
  else st

/-- The debug drawing of update (main.cpp lines 95 to 105); the three calls
into `m_debug_draw` are recorded in the trace only. -/
def debug_draw (st : App) : App :=
  if st.m_hit_distance ≠ INFINITY then
    let st := if st.m_visualize_hit_point then log Event.debug_sphere st else st
    let st := if st.m_visualize_projection_frustum then log Event.debug_frustum st else st
    if st.m_visualize_hit_point || st.m_visualize_projection_frustum then
      log Event.debug_render st
    else st
  else st

/-- The member function update (main.cpp lines 72 to 106); `inp` is what the
user does to the debug window during the frame. -/
def update (lib : Lib) (inp : UiInput) (st : App) : App :=
  let st := update_camera lib st
  let st := update_global_uniforms st.m_global_uniforms st
  let st := if st.m_debug_gui then ui lib inp st else st
  let st := decal_apply_cycle lib st
  let st := render_lit_scene lib st
  let st := if st.m_visualize_albedo_map then visualize_albedo_map lib st else st
  debug_draw st

/-- The statements of update before the decal-apply cycle (main.cpp lines 75 to 80). -/
def frame_head (lib : Lib) (inp : UiInput) (st : App) : App :=
  let st := update_camera lib st
  let st := update_global_uniforms st.m_global_uniforms st
  if st.m_debug_gui then ui lib inp st else st

/-- The statements of update after the decal-apply cycle (main.cpp lines 90 to 105). -/
def frame_tail (lib : Lib) (st : App) : App :=
  let st := render_lit_scene lib st
  let st := if st.m_visualize_albedo_map then visualize_albedo_map lib st else st
  debug_draw st

/-- The GLFW constant GLFW_MOUSE_BUTTON_LEFT. -/
def GLFW_MOUSE_BUTTON_LEFT : Int := 0

/-- The GLFW constant GLFW_MOUSE_BUTTON_RIGHT. -/
def GLFW_MOUSE_BUTTON_RIGHT : Int := 1

/-- The GLFW constant GLFW_KEY_SPACE. -/
def GLFW_KEY_SPACE : Int := 32

/-- The GLFW constant GLFW_KEY_A. -/
def GLFW_KEY_A : Int := 65

/-- The GLFW constant GLFW_KEY_D. -/
def GLFW_KEY_D : Int := 68

/-- The GLFW constant GLFW_KEY_G. -/
def GLFW_KEY_G : Int := 71

/-- The GLFW constant GLFW_KEY_S. -/
def GLFW_KEY_S : Int := 83

/-- The GLFW constant GLFW_KEY_W. -/
def GLFW_KEY_W : Int := 87

/-- The member function key_pressed (main.cpp lines 131 to 150). -/
def key_pressed (code : Int) (st : App) : App :=
  let st :=
    if code = GLFW_KEY_W then { st with m_heading_speed := st.m_camera_speed }
    else if code = GLFW_KEY_S then { st with m_heading_speed := -st.m_camera_speed }
    else st
  let st :=
    if code = GLFW_KEY_A then { st with m_sideways_speed := -st.m_camera_speed }
    else if code = GLFW_KEY_D then { st with m_sideways_speed := st.m_camera_speed }
    else st
  let st := if code = GLFW_KEY_SPACE then { st with m_mouse_look := true } else st
  if code = GLFW_KEY_G then { st with m_debug_gui := !st.m_debug_gui } else st

/-- The member function key_released (main.cpp lines 154 to 166). -/
def key_released (code : Int) (st : App) : App :=
  let st :=
    if code = GLFW_KEY_W ∨ code = GLFW_KEY_S then { st with m_heading_speed := 0 } else st
  let st :=
    if code = GLFW_KEY_A ∨ code = GLFW_KEY_D then { st with m_sideways_speed := 0 } else st
  if code = GLFW_KEY_SPACE then { st with m_mouse_look := false } else st

/-- The cursor position glfwGetCursorPos reports. -/
structure CursorPos where
  xpos : ℚ
  ypos : ℚ
  deriving DecidableEq

/-- The three numbers a pick draws from its random distributions:
`index_dis(gen)`, `scale_dis(gen)`, `rotation_dis(gen)`. -/
structure RandomDraw where
  index : Int
  scale : ℚ
  rotation : ℚ
  deriving DecidableEq

/-- The normalized device coordinates of the cursor, `ndc_pos` (main.cpp line 177). -/
def pick_ndc (cursor : CursorPos) (st : App) : Vec4 :=
  ⟨(2 * cursor.xpos) / (st.m_width : ℚ) - 1, 1 - (2 * cursor.ypos) / (st.m_height : ℚ), -1, 1⟩

/-- The direction of the pick ray (main.cpp lines 177 to 181). -/
def pick_ray_dir (lib : Lib) (cursor : CursorPos) (st : App) : Vec3 :=
  let ndc_pos : Vec4 := pick_ndc cursor st
  let view_coords := (lib.inverse st.m_main_camera.m_projection).mulVec ndc_pos
  let world_coords :=
    (lib.inverse st.m_main_camera.m_view).mulVec ⟨view_coords.x, view_coords.y, -1, 0⟩
  lib.normalize world_coords.xyz

/-- The ray handed to rtcIntersect1 (main.cpp lines 183 to 196). -/
def pick_ray (lib : Lib) (cursor : CursorPos) (st : App) : RTCRay :=
  let ray_dir := pick_ray_dir lib cursor st
  { dir_x := ray_dir.x
    dir_y := ray_dir.y
    dir_z := ray_dir.z
    org_x := st.m_main_camera.m_position.x
    org_y := st.m_main_camera.m_position.y
    org_z := st.m_main_camera.m_position.z
    tnear := 0
    tfar := INFINITY
    mask := 0
    flags := 0 }

/-- The member function mouse_pressed (main.cpp lines 170 to 233).  The test
`rayhit.ray.tfar != INFINITY` is the match on `tfar`; the assignment in the else
branch writes the local `rayhit` only. -/
def mouse_pressed (lib : Lib) (cursor : CursorPos) (rnd : RandomDraw) (code : Int)
    (st : App) : App :=
  let st :=
    if code = GLFW_MOUSE_BUTTON_LEFT then
      let ray_dir := pick_ray_dir lib cursor st
      let rayhit := lib.rtcIntersect1 (pick_ray lib cursor st)
      match rayhit.ray.tfar with
      | Float32.fin tfar =>
        let st := { st with m_hit_pos := st.m_main_camera.m_position.add (ray_dir.scale tfar) }
        let st := { st with m_hit_normal := ⟨rayhit.hit.Ng_x, rayhit.hit.Ng_y, rayhit.hit.Ng_z⟩ }
        let st := { st with m_hit_distance := Float32.fin tfar }
        let st := { st with
          m_projector_pos := st.m_hit_pos.add (st.m_hit_normal.scale PROJECTOR_BACK_OFF_DISTANCE) }
        let st := { st with m_projector_dir := st.m_hit_normal.neg }
        let st := { st with m_requires_update := true }
        if st.m_randomize_decals then
          let st := { st with m_selected_decal := rnd.index }
          let st := { st with m_projector_size := rnd.scale }
          { st with m_projector_rotation := rnd.rotation }
        else st
      | Float32.inf => st
    else st
  if code = GLFW_MOUSE_BUTTON_RIGHT then { st with m_mouse_look := true } else st

/-- The member function mouse_released (main.cpp lines 237 to 242). -/
def mouse_released (code : Int) (st : App) : App :=
  if code = GLFW_MOUSE_BUTTON_RIGHT then { st with m_mouse_look := false } else st

/-- The member function window_resized (main.cpp lines 121 to 127); its two
parameters are not read. -/
def window_resized (lib : Lib) (st : App) : App :=
  let st := { st with
    m_main_camera := lib.update_projection st.m_main_camera 60 (1 / 10) CAMERA_FAR_PLANE
      ((st.m_width : ℚ) / (st.m_height : ℚ)) }
  create_framebuffers st

/-- What the loaders called by init report: whether every shader was created,
the mesh if it was loaded, the four decal images, whether Embree started. -/
structure Loaded where
  shaders : Bool
  mesh : Option Mesh
  decals : List DecalTexture
  embree : Bool

/-- The member function init (main.cpp lines 39 to 68) on a freshly constructed
object; `none` when it returns false or throws. -/
def init (lib : Lib) (res : Loaded) (st : App) : Option App :=
  if !res.shaders then none
  else
    match res.mesh with
    | none => none
    | some mesh =>
      let st := { st with m_mesh := mesh }
      let st := { st with m_decal_textures := res.decals }
      if !res.embree then none
      else
        let st := create_framebuffers st
        let st := create_camera lib st
        let st := { st with m_transform := Mat4.identity }
        some (init_texture lib st)

/-- One call the framework makes into the application. -/
inductive Call where
  | update (inp : UiInput)
  | window_resized
  | key_pressed (code : Int)
  | key_released (code : Int)
  | mouse_pressed (cursor : CursorPos) (rnd : RandomDraw) (code : Int)
  | mouse_released (code : Int)

/-- The effect of one framework call. -/
def step (lib : Lib) (st : App) (c : Call) : App :=
  match c with
  | Call.update inp => update lib inp st
  | Call.window_resized => window_resized lib st
  | Call.key_pressed code => key_pressed code st
  | Call.key_released code => key_released code st
  | Call.mouse_pressed cursor rnd code => mouse_pressed lib cursor rnd code st
  | Call.mouse_released code => mouse_released code st

/-- The effect of a sequence of framework calls. -/
def run (lib : Lib) (st : App) (cs : List Call) : App :=
  cs.foldl (step lib) st

/-! ## The projector of the specification -/

/-- The view and projection matrices of the ProjectorBuilder of the
specification, section 4.2, written from its words: the eye is the hit position
plus the hit normal times the back-off distance, forward is the negated normal,
the up reference is the axis (0, 1, 0) rotated by `rotation_degrees` around
forward, the view is `look_at(eye, hit.position, up)` and the projection is
`orthographic(-half_width, half_width, -half_height, half_height, 0.1, far)` with
`half_height = half_width * decal_aspect`. -/
def ProjectorBuilder (lib : Lib) (hit_position hit_normal : Vec3)
    (half_width rotation_degrees decal_aspect : ℚ) : Mat4 × Mat4 :=
  let eye := hit_position.add (hit_normal.scale 10)
  let forward := hit_normal.neg
  let up := ((glm_rotate lib Mat4.identity (lib.radians rotation_degrees) forward).mulVec
    ⟨0, 1, 0, 0⟩).xyz
  let half_height := half_width * decal_aspect
  (glm_lookAt lib eye hit_position up,
   glm_ortho (-half_width) half_width (-half_height) half_height (1 / 10) 1000)

/-- The aspect `height / width` of the decal selected in a state. -/
def decal_aspect (st : App) : ℚ :=
  ((decal_texture st st.m_selected_decal).height : ℚ)
    / ((decal_texture st st.m_selected_decal).width : ℚ)

/-! ## Embree geometry buffers (initialize_embree) -/

/-- The value of `sizeof(uint32_t)`. -/
def SIZEOF_UINT32 : Nat := 4

/-- The number of values of `uint32_t`. -/
def UINT32_SIZE : Nat := 4294967296

/-- The bytes of the index buffer initialize_embree asks Embree for (main.cpp
line 675): `index_count / 3` items of `3 * sizeof(uint32_t)` bytes each. -/
def index_buffer_bytes (index_count : Nat) : Nat :=
  (3 * SIZEOF_UINT32) * (index_count / 3)

/-- The bytes initialize_embree copies into that buffer (main.cpp line 676):
`indices.size() * sizeof(uint32_t)`, where `indices` has `index_count` elements. -/
def index_copy_bytes (index_count : Nat) : Nat :=
  index_count * SIZEOF_UINT32

/-- The largest value of `int`. -/
def INT_MAX : Nat := 2147483647

/-- The assignment `indices[idx++] = submesh.base_vertex + index_ptr[j]` (main.cpp
line 669) on the pair of `indices` and `idx`; the sum is a `uint32_t`.  The
result is `none` where the source has no defined behaviour: when the position
does not fit the `int j`, or `index_ptr[j]` or `indices[idx]` lies outside its
array. -/
def write_index (index_ptr : List Nat) (base_vertex : Nat) (s : List Nat × Nat) (j : Nat) :
    Option (List Nat × Nat) :=
  if INT_MAX < j then none
  else
    match index_ptr[j]? with
    | none => none
    | some v =>
      if s.2 < s.1.length then some (s.1.set s.2 ((base_vertex + v) % UINT32_SIZE), s.2 + 1)
      else none

/-- The loops of initialize_embree that fill `indices` (main.cpp lines 656 to
670): `indices` starts as `index_count()` zeros and `idx` as 0; for every submesh
`j` runs from `base_index` to `base_index + index_count - 1`.  The result is the
final pair of `indices` and `idx`, or `none` when an assignment has no defined
behaviour. -/
def fill_indices (mesh : Mesh) : Option (List Nat × Nat) :=
  mesh.sub_meshes.foldlM
    (fun s submesh =>
      (List.range' submesh.base_index submesh.index_count).foldlM
        (write_index mesh.indices submesh.base_vertex) s)
    (List.replicate mesh.indices.length 0, 0)

/-- The index range of one submesh with its `base_vertex` added to every index, as
`uint32_t` values. -/
def rebased_range (index_ptr : List Nat) (submesh : SubMesh) : List Nat :=
  ((index_ptr.drop submesh.base_index).take submesh.index_count).map
    (fun v => (submesh.base_vertex + v) % UINT32_SIZE)

/-- The index buffer in the words of the claim: the concatenation, in submesh
order, of each submesh's index range with that submesh's `base_vertex` added. -/
def concatenated_indices (index_ptr : List Nat) (sub_meshes : List SubMesh) : List Nat :=
  sub_meshes.foldr (fun submesh rest => rebased_range index_ptr submesh ++ rest) []

/-- The sum of the index counts of the submeshes. -/
def total_index_count (sub_meshes : List SubMesh) : Nat :=
  sub_meshes.foldr (fun submesh rest => submesh.index_count + rest) 0

/-! ## Readings of the state used by the claims -/

/-- The up reference update_transforms hands to glm::lookAt, `glm::vec3(rotated_axis)`
(main.cpp lines 775 to 779). -/
def projector_up (lib : Lib) (st : App) : Vec3 :=
  ((glm_rotate lib Mat4.identity (lib.radians st.m_projector_rotation)
    st.m_projector_dir).mulVec ⟨0, 1, 0, 0⟩).xyz

/-- Whether conservative rasterization is on under a capability record.
`GL_CONSERVATIVE_RASTERIZATION_NV` is the capability of the NVIDIA extension.
`GL_INTEL_conservative_rasterization` is the name of the Intel extension, which
the GL headers define as the constant 1 next to the loader flag
`GLAD_GL_INTEL_conservative_rasterization`; it is not a capability, and glEnable
called with it turns nothing on.  The capability of that extension,
`GL_CONSERVATIVE_RASTERIZATION_INTEL`, is never passed by main.cpp. -/
def conservative_rasterization_on (c : Caps) : Bool :=
  c.conservative_rasterization_nv

/-- The squared length of a vector. -/
def Vec3.length_squared (v : Vec3) : ℚ := v.dot v

/-- The capability record under which init_texture issues its draw calls: the
record it finds, after its conditional glEnable and its three glDisable calls. -/
def init_texture_caps (lib : Lib) (st : App) : Caps :=
  let c := st.gpu.caps
  let c :=
    if st.m_enable_conservative_raster then
      if lib.GLAD_GL_NV_conservative_raster then
        c.set Cap.GL_CONSERVATIVE_RASTERIZATION_NV true
      else if lib.GLAD_GL_INTEL_conservative_rasterization then
        c.set Cap.GL_INTEL_conservative_rasterization true
      else c
    else c
  ((c.set Cap.GL_DEPTH_TEST false).set Cap.GL_BLEND false).set Cap.GL_CULL_FACE false

/-- The draw call init_texture issues for a submesh. -/
def init_texture_call (lib : Lib) (st : App) (submesh : SubMesh) : DrawCall :=
  { program := some Program.texture_init
    caps := init_texture_caps lib st
    u_Model := st.m_transform
    uniforms := st.gpu.ubo
    unit0 := st.gpu.unit0
    unit1 := st.gpu.unit1
    indexed := true
    count := submesh.index_count
    base_index := submesh.base_index
    base_vertex := submesh.base_vertex }

/-- The canvas contents init_texture leaves: cleared, then one draw call for
every submesh, in order. -/
def init_texture_image (lib : Lib) (st : App) : Image :=
  ⟨true, st.m_mesh.sub_meshes.map (init_texture_call lib st)⟩

/-- The documented ranges of the configuration parameters: size in [0.1, 20],
rotation in [-180, 180] degrees, selected decal index in [0, 4). -/
def config_in_range (st : App) : Prop :=
  1 / 10 ≤ st.m_projector_size ∧ st.m_projector_size ≤ 20
  ∧ -180 ≤ st.m_projector_rotation ∧ st.m_projector_rotation ≤ 180
  ∧ 0 ≤ st.m_selected_decal ∧ st.m_selected_decal < 4

/-- The values the three distributions of mouse_pressed can produce (main.cpp
lines 217 to 219): `scale_dis(5.0, 20.0)`, `rotation_dis(-90.0, 90.0)`,
`index_dis(0, 3)`. -/
def RandomDraw.in_range (rnd : RandomDraw) : Prop :=
  0 ≤ rnd.index ∧ rnd.index ≤ 3
  ∧ 5 ≤ rnd.scale ∧ rnd.scale ≤ 20
  ∧ -90 ≤ rnd.rotation ∧ rnd.rotation ≤ 90

/-- A framework call whose random draws, if it has any, come from the
distributions. -/
def Call.in_range (c : Call) : Prop :=
  match c with
  | Call.mouse_pressed _ rnd _ => rnd.in_range
  | _ => True

/-! ## A concrete scene

A unit quad in the plane `z = 0`, facing `+z`, seen from `(0, 0, 5)` through an
identity view and projection in an 800 by 600 window.  The library functions are
the simplest total ones; the intersector is the exact one for the quad. -/

/-- Nearest hit of a ray with the quad `[-1, 1] × [-1, 1] × {0}`, geometric normal `(0, 0, 1)`. -/
def quad_intersect (ray : RTCRay) : RTCRayHit :=
  let t := ray.org_z / (-ray.dir_z)
  if 0 < ray.org_z ∧ ray.dir_z < 0
      ∧ -1 ≤ ray.org_x + ray.dir_x * t ∧ ray.org_x + ray.dir_x * t ≤ 1
      ∧ -1 ≤ ray.org_y + ray.dir_y * t ∧ ray.org_y + ray.dir_y * t ≤ 1 then
    ⟨{ ray with tfar := Float32.fin t }, ⟨0, 0, 1, 0, RTC_INVALID_GEOMETRY_ID⟩⟩
  else
    ⟨ray, ⟨0, 0, 0, RTC_INVALID_GEOMETRY_ID, RTC_INVALID_GEOMETRY_ID⟩⟩

/-- A camera at `(0, 0, 5)` with identity matrices. -/
def quad_camera : Camera :=
  ⟨Mat4.identity, Mat4.identity, ⟨0, 0, 5⟩, ⟨0, 0, -1⟩, ⟨1, 0, 0⟩⟩

/-- Library functions for the concrete scene. -/
def quad_lib : Lib :=
  { normalize := fun v => v
    inverse := fun m => m
    cos := fun _ => 1
    sin := fun _ => 0
    radians := fun d => d
    rtcIntersect1 := quad_intersect
    camera_new := fun _ _ _ _ _ _ => quad_camera
    set_translation_delta := fun c _ _ => c
    set_rotatation_delta := fun c _ => c
    camera_update := fun c => c
    update_projection := fun c _ _ _ _ => c
    set_uniform := fun _ _ => true
    GLAD_GL_NV_conservative_raster := false
    GLAD_GL_INTEL_conservative_rasterization := false }

/-- The quad as one submesh of two triangles. -/
def quad_mesh : Mesh :=
  ⟨[⟨-1, -1, 0⟩, ⟨1, -1, 0⟩, ⟨1, 1, 0⟩, ⟨-1, 1, 0⟩], [0, 1, 2, 0, 2, 3], [⟨6, 0, 0⟩]⟩

/-- The loaders succeed; the four decals are 512 by 256. -/
def quad_loaded : Loaded :=
  ⟨true, some quad_mesh, [⟨512, 256⟩, ⟨512, 256⟩, ⟨512, 256⟩, ⟨512, 256⟩], true⟩

/-- Arbitrary contents for the members that have no initialiser. -/
def quad_raw : App :=
  { m_width := 800
    m_height := 600
    m_delta := 0
    m_mouse_delta_x := 0
    m_mouse_delta_y := 0
    gpu :=
      { caps := ⟨false, false, false, false, false⟩
        cull_mode := CullMode.GL_BACK
        framebuffer := Target.screen
        viewport := (0, 0, 800, 600)
        program := none
        u_Model := Mat4.identity
        unit0 := none
        unit1 := none
        ubo := ⟨Mat4.identity, Mat4.identity, ⟨0, 0, 0, 0⟩⟩
        screen := ⟨false, []⟩
        m_albedo_texture := ⟨0, ⟨false, []⟩, none⟩
        m_depth_texture := ⟨0, ⟨false, []⟩, none⟩
        next_texture_id := 0 }
    trace := []
    m_decal_textures := []
    m_main_camera := quad_camera
    m_global_uniforms := ⟨Mat4.identity, Mat4.identity, ⟨0, 0, 0, 0⟩⟩
    m_mesh := ⟨[], [], []⟩
    m_transform := Mat4.identity
    m_mouse_look := false
    m_heading_speed := 0
    m_sideways_speed := 0
    m_camera_sensitivity := 0
    m_camera_speed := 0
    m_enable_dither := false
    m_debug_gui := false
    m_hit_pos := ⟨0, 0, 0⟩
    m_hit_normal := ⟨0, 0, 0⟩
    m_hit_distance := Float32.fin 0
    m_projector_pos := ⟨0, 0, 0⟩
    m_projector_dir := ⟨0, 0, 0⟩
    m_projector_view := Mat4.identity
    m_projector_proj := Mat4.identity
    m_projector_size := 0
    m_projector_rotation := 0
    m_requires_update := false
    m_visualize_albedo_map := false
    m_visualize_projection_frustum := false
    m_visualize_hit_point := false
    m_enable_conservative_raster := false
    m_randomize_decals := false
    m_selected_decal := 0
    m_camera_x := 0
    m_camera_y := 0 }

/-- The application right after a successful init. -/
def quad_app : App :=
  (init quad_lib quad_loaded (construct quad_raw)).getD quad_raw

/-- A click in the middle of the window: the ray hits the quad at the origin. -/
def cursor_hit : CursorPos := ⟨400, 300⟩

/-- A click in the top left corner of the window: the ray misses the quad. -/
def cursor_miss : CursorPos := ⟨0, 0⟩

/-- Random draws inside the ranges of the three distributions. -/
def quad_draw : RandomDraw := ⟨2, 8, 45⟩

/-- A frame in which the user clicks the randomize checkbox. -/
def ui_randomize_click : UiInput :=
  ⟨none, none, none, true, false, false, false, false, false⟩

/-- A frame in which the user drags the decal size to 5. -/
def ui_size_5 : UiInput :=
  ⟨none, some 5, none, false, false, false, false, false, false⟩

/-- The application after the user switched randomize-on-pick off, clicked on the
quad, and one more frame stamped the decal: a valid hit record is held and no
apply is pending. -/
def quad_stamped : App :=
  update quad_lib UiInput.idle
    (mouse_pressed quad_lib cursor_hit quad_draw GLFW_MOUSE_BUTTON_LEFT
      (update quad_lib ui_randomize_click quad_app))

/-- The application after the user switched randomize-on-pick off and, one frame
later, dragged the decal size to 5, without any pick. -/
def quad_resized_decal : App :=
  update quad_lib ui_size_5 (update quad_lib ui_randomize_click quad_app)

/-- The events of a frame that belong neither to a decal-apply cycle nor to a clear. -/
def frame_noise : List Event :=
  [Event.render_lit_scene, Event.visualize_albedo_map, Event.debug_sphere, Event.debug_frustum,
    Event.debug_render]

/-! ## A second concrete scene

A floor in the plane `y = -5`, seen from the same camera.  Embree reports the
geometric normal of a triangle without normalizing it: here `(0, 2, 0)`. -/

/-- The function glm::normalize on the world Y axis, where its result is
rational; other vectors are returned as they are. -/
def axis_normalize (v : Vec3) : Vec3 :=
  if v.x = 0 ∧ v.z = 0 ∧ v.y ≠ 0 then ⟨0, v.y / |v.y|, 0⟩ else v

/-- Nearest hit of a ray with the floor `y = -5`, geometric normal `(0, 2, 0)`. -/
def floor_intersect (ray : RTCRay) : RTCRayHit :=
  if ray.dir_y < 0 ∧ -5 < ray.org_y then
    ⟨{ ray with tfar := Float32.fin ((ray.org_y + 5) / (-ray.dir_y)) },
      ⟨0, 2, 0, 0, RTC_INVALID_GEOMETRY_ID⟩⟩
  else
    ⟨ray, ⟨0, 0, 0, RTC_INVALID_GEOMETRY_ID, RTC_INVALID_GEOMETRY_ID⟩⟩

/-- Library functions for the floor scene. -/
def floor_lib : Lib :=
  { quad_lib with
    normalize := axis_normalize
    rtcIntersect1 := floor_intersect }

/-- A click at the bottom centre of the window: the ray hits the floor at
distance 5, in the point `(0, -5, 0)`. -/
def cursor_floor : CursorPos := ⟨400, 600⟩

/-- The quad scene on a GPU that offers the NVIDIA extension only. -/
def nv_lib : Lib :=
  { quad_lib with GLAD_GL_NV_conservative_raster := true }

/-- The quad scene on a GPU that offers the Intel extension only. -/
def intel_lib : Lib :=
  { quad_lib with GLAD_GL_INTEL_conservative_rasterization := true }
/-! ## Lemmas: the draw loops -/

theorem foldl_inv {α β : Type} (P : β → Prop) (f : β → α → β)
    (hf : ∀ b a, P b → P (f b a)) : ∀ (l : List α) (b : β), P b → P (l.foldl f b) := by
  intro l
  induction l with
  | nil => intro b hb; exact hb
  | cons a l ih => intro b hb; exact ih (f b a) (hf b a hb)

theorem left_ne_right : GLFW_MOUSE_BUTTON_LEFT ≠ GLFW_MOUSE_BUTTON_RIGHT := by decide

theorem draw_ubo (c b v : Nat) (g : Gpu) : (glDrawElementsBaseVertex c b v g).ubo = g.ubo := by
  unfold glDrawElementsBaseVertex emit; split <;> rfl

theorem draw_framebuffer (c b v : Nat) (g : Gpu) :
    (glDrawElementsBaseVertex c b v g).framebuffer = g.framebuffer := by
  unfold glDrawElementsBaseVertex emit; split <;> rfl

theorem draw_program (c b v : Nat) (g : Gpu) :
    (glDrawElementsBaseVertex c b v g).program = g.program := by
  unfold glDrawElementsBaseVertex emit; split <;> rfl

theorem draw_albedo_of_ne (c b v : Nat) (g : Gpu) (h : g.framebuffer ≠ Target.albedo_fbo) :
    (glDrawElementsBaseVertex c b v g).m_albedo_texture = g.m_albedo_texture := by
  unfold glDrawElementsBaseVertex emit; split <;> first | rfl | contradiction

theorem draw_depth_of_ne (c b v : Nat) (g : Gpu) (h : g.framebuffer ≠ Target.depth_fbo) :
    (glDrawElementsBaseVertex c b v g).m_depth_texture = g.m_depth_texture := by
  unfold glDrawElementsBaseVertex emit; split <;> first | rfl | contradiction

theorem draw_depth_of (c b v : Nat) (g : Gpu) (h : g.framebuffer = Target.depth_fbo) :
    (glDrawElementsBaseVertex c b v g).m_depth_texture.base.draws
      = g.m_depth_texture.base.draws ++ [current_call true c b v g] := by
  unfold glDrawElementsBaseVertex emit; rw [h]; rfl

theorem draw_albedo_of (c b v : Nat) (g : Gpu) (h : g.framebuffer = Target.albedo_fbo) :
    (glDrawElementsBaseVertex c b v g).m_albedo_texture
      = { g.m_albedo_texture with
          base := g.m_albedo_texture.base.draw (current_call true c b v g) } := by
  unfold glDrawElementsBaseVertex emit; rw [h]

/-- A draw loop bound to the screen changes neither texture nor the uniform buffer. -/
theorem render_mesh_screen (lib : Lib) (mesh : Mesh) (model : Mat4) (program : Program) (g : Gpu)
    (h : g.framebuffer = Target.screen) :
    (render_mesh lib mesh model program g).framebuffer = Target.screen
    ∧ (render_mesh lib mesh model program g).ubo = g.ubo
    ∧ (render_mesh lib mesh model program g).m_albedo_texture = g.m_albedo_texture
    ∧ (render_mesh lib mesh model program g).m_depth_texture = g.m_depth_texture := by
  unfold render_mesh
  apply foldl_inv (fun g' : Gpu => g'.framebuffer = Target.screen ∧ g'.ubo = g.ubo
    ∧ g'.m_albedo_texture = g.m_albedo_texture ∧ g'.m_depth_texture = g.m_depth_texture)
  · intro b a ⟨h1, h2, h3, h4⟩
    cases lib.set_uniform program Uniform.s_Texture <;>
      simp [draw_ubo, draw_framebuffer, draw_albedo_of_ne, draw_depth_of_ne, bind_unit0,
        h1, h2, h3, h4]
  · simp [set_u_Model, h]

/-- A draw loop bound to the depth map leaves the canvas alone, and every draw
call it adds carries the current contents of the uniform buffer. -/
theorem render_mesh_depth (lib : Lib) (mesh : Mesh) (model : Mat4) (program : Program) (g : Gpu)
    (h : g.framebuffer = Target.depth_fbo)
    (hd : ∀ d ∈ g.m_depth_texture.base.draws, d.uniforms = g.ubo) :
    (render_mesh lib mesh model program g).ubo = g.ubo
    ∧ (render_mesh lib mesh model program g).m_albedo_texture = g.m_albedo_texture
    ∧ ∀ d ∈ (render_mesh lib mesh model program g).m_depth_texture.base.draws,
        d.uniforms = g.ubo := by
  unfold render_mesh
  have key := foldl_inv (fun g' : Gpu => g'.framebuffer = Target.depth_fbo ∧ g'.ubo = g.ubo
    ∧ g'.m_albedo_texture = g.m_albedo_texture
    ∧ ∀ d ∈ g'.m_depth_texture.base.draws, d.uniforms = g.ubo)
    (fun g submesh =>
      glDrawElementsBaseVertex submesh.index_count submesh.base_index submesh.base_vertex
        (if lib.set_uniform program Uniform.s_Texture then bind_unit0 TexRef.albedo g else g))
    (by
      intro b a ⟨h1, h2, h3, h4⟩
      cases lib.set_uniform program Uniform.s_Texture <;>
        simp [draw_ubo, draw_framebuffer, draw_albedo_of_ne, draw_depth_of, bind_unit0,
          h1, h2, h3, current_call] <;>
        (rintro d (hd | rfl)
         · exact h4 d hd
         · rfl))
    mesh.sub_meshes (set_u_Model model g) (by simpa [set_u_Model, h] using hd)
  exact key.2


/-- The draw loop of init_texture. -/
theorem init_loop (l : List SubMesh) (g : Gpu) (hf : g.framebuffer = Target.albedo_fbo)
    (hp : g.program = some Program.texture_init)
    (hd : ∀ d ∈ g.m_albedo_texture.base.draws, d.program = some Program.texture_init) :
    (l.foldl (fun g submesh =>
        glDrawElementsBaseVertex submesh.index_count submesh.base_index submesh.base_vertex g)
      g).ubo = g.ubo
    ∧ ∀ d ∈ (l.foldl (fun g submesh =>
        glDrawElementsBaseVertex submesh.index_count submesh.base_index submesh.base_vertex g)
      g).m_albedo_texture.base.draws, d.program = some Program.texture_init := by
  have key := foldl_inv (fun g' : Gpu => g'.framebuffer = Target.albedo_fbo ∧ g'.ubo = g.ubo
    ∧ g'.program = some Program.texture_init
    ∧ ∀ d ∈ g'.m_albedo_texture.base.draws, d.program = some Program.texture_init)
    (fun g submesh =>
      glDrawElementsBaseVertex submesh.index_count submesh.base_index submesh.base_vertex g)
    (by
      intro b a ⟨h1, h2, h3, h4⟩
      simp [draw_ubo, draw_framebuffer, draw_program, draw_albedo_of, Image.draw,
        h1, h2, h3, current_call]
      rintro d (hd | rfl)
      · exact h4 d hd
      · rfl)
    l g ⟨hf, rfl, hp, hd⟩
  exact ⟨key.2.1, key.2.2.2⟩

theorem init_texture_trace (lib : Lib) (st : App) :
    (init_texture lib st).trace = st.trace ++ [Event.init_texture, Event.generate_mipmaps] := by
  simp [init_texture, generate_mipmaps, log]

theorem init_texture_requires_update (lib : Lib) (st : App) :
    (init_texture lib st).m_requires_update = st.m_requires_update := rfl

theorem init_texture_gpu (lib : Lib) (st : App) :
    (init_texture lib st).gpu.ubo = st.gpu.ubo
    ∧ ∀ d ∈ (init_texture lib st).gpu.m_albedo_texture.base.draws,
        d.program = some Program.texture_init := by
  simp only [init_texture, generate_mipmaps, log]
  have hl := init_loop st.m_mesh.sub_meshes
    (set_u_Model st.m_transform (use_program Program.texture_init (glClear true false
      (glViewport 0 0 ALBEDO_TEXTURE_SIZE ALBEDO_TEXTURE_SIZE
        (bind_framebuffer Target.albedo_fbo (glDisable Cap.GL_CULL_FACE
          (glDisable Cap.GL_BLEND (glDisable Cap.GL_DEPTH_TEST
            (if st.m_enable_conservative_raster then
              if lib.GLAD_GL_NV_conservative_raster then
                glEnable Cap.GL_CONSERVATIVE_RASTERIZATION_NV st.gpu
              else if lib.GLAD_GL_INTEL_conservative_rasterization then
                glEnable Cap.GL_INTEL_conservative_rasterization st.gpu
              else st.gpu
            else st.gpu)))))))))
    (by simp [set_u_Model, use_program, glClear, glViewport, bind_framebuffer])
    (by simp [set_u_Model, use_program])
    (by simp [set_u_Model, use_program, glClear, glViewport, bind_framebuffer, Image.clear])
  constructor
  · split_ifs <;> simp_all [glDisable, glEnable, set_u_Model, use_program, glClear, glViewport,
      bind_framebuffer]
  · split_ifs <;> simp_all [glDisable, glEnable]


/-- The draw loop of apply_decals. -/
theorem decal_loop (lib : Lib) (i : Int) (l : List SubMesh) (g : Gpu) (old : List DrawCall)
    (hf : g.framebuffer = Target.albedo_fbo)
    (hd : ∀ d ∈ g.m_albedo_texture.base.draws, d ∈ old ∨ d.uniforms = g.ubo) :
    (l.foldl (fun g submesh =>
        glDrawElementsBaseVertex submesh.index_count submesh.base_index submesh.base_vertex
          (if lib.set_uniform Program.decal Uniform.s_Depth then
            bind_unit1 TexRef.depth
              (if lib.set_uniform Program.decal Uniform.s_Decal then
                bind_unit0 (TexRef.decal i) g else g)
           else
              (if lib.set_uniform Program.decal Uniform.s_Decal then
                bind_unit0 (TexRef.decal i) g else g)))
      g).ubo = g.ubo
    ∧ (l.foldl (fun g submesh =>
        glDrawElementsBaseVertex submesh.index_count submesh.base_index submesh.base_vertex
          (if lib.set_uniform Program.decal Uniform.s_Depth then
            bind_unit1 TexRef.depth
              (if lib.set_uniform Program.decal Uniform.s_Decal then
                bind_unit0 (TexRef.decal i) g else g)
           else
              (if lib.set_uniform Program.decal Uniform.s_Decal then
                bind_unit0 (TexRef.decal i) g else g)))
      g).m_depth_texture = g.m_depth_texture
    ∧ ∀ d ∈ (l.foldl (fun g submesh =>
        glDrawElementsBaseVertex submesh.index_count submesh.base_index submesh.base_vertex
          (if lib.set_uniform Program.decal Uniform.s_Depth then
            bind_unit1 TexRef.depth
              (if lib.set_uniform Program.decal Uniform.s_Decal then
                bind_unit0 (TexRef.decal i) g else g)
           else
              (if lib.set_uniform Program.decal Uniform.s_Decal then
                bind_unit0 (TexRef.decal i) g else g)))
      g).m_albedo_texture.base.draws, d ∈ old ∨ d.uniforms = g.ubo := by
  have key := foldl_inv (fun g' : Gpu => g'.framebuffer = Target.albedo_fbo ∧ g'.ubo = g.ubo
    ∧ g'.m_depth_texture = g.m_depth_texture
    ∧ ∀ d ∈ g'.m_albedo_texture.base.draws, d ∈ old ∨ d.uniforms = g.ubo)
    (fun g submesh =>
        glDrawElementsBaseVertex submesh.index_count submesh.base_index submesh.base_vertex
          (if lib.set_uniform Program.decal Uniform.s_Depth then
            bind_unit1 TexRef.depth
              (if lib.set_uniform Program.decal Uniform.s_Decal then
                bind_unit0 (TexRef.decal i) g else g)
           else
              (if lib.set_uniform Program.decal Uniform.s_Decal then
                bind_unit0 (TexRef.decal i) g else g)))
    (by
      intro b a ⟨h1, h2, h3, h4⟩
      cases lib.set_uniform Program.decal Uniform.s_Depth <;>
      cases lib.set_uniform Program.decal Uniform.s_Decal <;>
        simp [draw_ubo, draw_framebuffer, draw_depth_of_ne, draw_albedo_of, Image.draw,
          bind_unit0, bind_unit1, h1, h2, h3, current_call] <;>
        (rintro d (hd | rfl)
         · exact h4 d hd
         · exact Or.inr rfl))
    l g ⟨hf, rfl, rfl, hd⟩
  exact ⟨key.2.1, key.2.2.1, key.2.2.2⟩

theorem apply_decals_trace (lib : Lib) (st : App) :
    (apply_decals lib st).trace = st.trace ++ [Event.apply_decals] := rfl

theorem apply_decals_requires_update (lib : Lib) (st : App) :
    (apply_decals lib st).m_requires_update = st.m_requires_update := rfl

theorem apply_decals_gpu (lib : Lib) (st : App) :
    (apply_decals lib st).gpu.ubo = st.gpu.ubo
    ∧ (apply_decals lib st).gpu.m_depth_texture = st.gpu.m_depth_texture
    ∧ ∀ d ∈ (apply_decals lib st).gpu.m_albedo_texture.base.draws,
        d ∈ st.gpu.m_albedo_texture.base.draws ∨ d.uniforms = st.gpu.ubo := by
  simp only [apply_decals, log]
  have hl := decal_loop lib st.m_selected_decal st.m_mesh.sub_meshes
    (set_u_Model st.m_transform (use_program Program.decal
      (glViewport 0 0 ALBEDO_TEXTURE_SIZE ALBEDO_TEXTURE_SIZE
        (bind_framebuffer Target.albedo_fbo (glDisable Cap.GL_CULL_FACE
          (glEnable Cap.GL_BLEND (glDisable Cap.GL_DEPTH_TEST
            (if st.m_enable_conservative_raster then
              if lib.GLAD_GL_NV_conservative_raster then
                glEnable Cap.GL_CONSERVATIVE_RASTERIZATION_NV st.gpu
              else if lib.GLAD_GL_INTEL_conservative_rasterization then
                glEnable Cap.GL_INTEL_conservative_rasterization st.gpu
              else st.gpu
            else st.gpu))))))))
    st.gpu.m_albedo_texture.base.draws
    (by simp [set_u_Model, use_program, glViewport, bind_framebuffer])
    (by
      intro d hd
      left
      revert hd
      split_ifs <;> simp [set_u_Model, use_program, glViewport, bind_framebuffer, glDisable,
        glEnable])
  refine ⟨?_, ?_, ?_⟩
  · split_ifs <;> simp_all [glDisable, glEnable, set_u_Model, use_program, glViewport,
      bind_framebuffer]
  · split_ifs <;> simp_all [glDisable, glEnable, set_u_Model, use_program, glViewport,
      bind_framebuffer]
  · split_ifs <;> simp_all [glDisable, glEnable, set_u_Model, use_program, glViewport,
      bind_framebuffer]


/-! ## Lemmas: the passes -/

theorem generate_mipmaps_trace (st : App) :
    (generate_mipmaps st).trace = st.trace ++ [Event.generate_mipmaps] := rfl

theorem render_depth_map_trace (lib : Lib) (st : App) :
    (render_depth_map lib st).trace = st.trace ++ [Event.render_depth_map] := rfl

theorem render_depth_map_requires_update (lib : Lib) (st : App) :
    (render_depth_map lib st).m_requires_update = st.m_requires_update := rfl

theorem render_depth_map_gpu (lib : Lib) (st : App) :
    (render_depth_map lib st).gpu.ubo = st.gpu.ubo
    ∧ (render_depth_map lib st).gpu.m_albedo_texture = st.gpu.m_albedo_texture
    ∧ ∀ d ∈ (render_depth_map lib st).gpu.m_depth_texture.base.draws,
        d.uniforms = st.gpu.ubo := by
  have h := render_mesh_depth lib st.m_mesh st.m_transform Program.depth
    (use_program Program.depth (glClear true true
      (glViewport 0 0 DEPTH_TEXTURE_SIZE DEPTH_TEXTURE_SIZE (bind_framebuffer Target.depth_fbo
        (glCullFace CullMode.GL_BACK (glEnable Cap.GL_CULL_FACE (glDisable Cap.GL_BLEND
          (glEnable Cap.GL_DEPTH_TEST st.gpu))))))))
    (by simp [use_program, glClear, glViewport, bind_framebuffer])
    (by simp [use_program, glClear, glViewport, bind_framebuffer, Image.clear])
  simpa [render_depth_map, render_scene, log, use_program, glClear, glViewport,
    bind_framebuffer, glCullFace, glEnable, glDisable] using h

theorem render_lit_scene_trace (lib : Lib) (st : App) :
    (render_lit_scene lib st).trace = st.trace ++ [Event.render_lit_scene] := rfl

theorem render_lit_scene_requires_update (lib : Lib) (st : App) :
    (render_lit_scene lib st).m_requires_update = st.m_requires_update := rfl

theorem render_lit_scene_gpu (lib : Lib) (st : App) :
    (render_lit_scene lib st).gpu.framebuffer = Target.screen
    ∧ (render_lit_scene lib st).gpu.ubo = st.gpu.ubo
    ∧ (render_lit_scene lib st).gpu.m_albedo_texture = st.gpu.m_albedo_texture
    ∧ (render_lit_scene lib st).gpu.m_depth_texture = st.gpu.m_depth_texture := by
  have h := render_mesh_screen lib st.m_mesh st.m_transform Program.mesh
    (use_program Program.mesh (glClear true true
      (glViewport 0 0 st.m_width st.m_height (bind_framebuffer Target.screen
        (glCullFace CullMode.GL_BACK (glEnable Cap.GL_CULL_FACE (glDisable Cap.GL_BLEND
          (glEnable Cap.GL_DEPTH_TEST st.gpu))))))))
    (by simp [use_program, glClear, glViewport, bind_framebuffer])
  simpa [render_lit_scene, render_scene, log, use_program, glClear, glViewport,
    bind_framebuffer, glCullFace, glEnable, glDisable] using h

theorem visualize_albedo_map_trace (lib : Lib) (st : App) :
    (visualize_albedo_map lib st).trace = st.trace ++ [Event.visualize_albedo_map] := rfl

theorem visualize_albedo_map_requires_update (lib : Lib) (st : App) :
    (visualize_albedo_map lib st).m_requires_update = st.m_requires_update := rfl

theorem visualize_albedo_map_gpu (lib : Lib) (st : App)
    (h : st.gpu.framebuffer = Target.screen) :
    (visualize_albedo_map lib st).gpu.ubo = st.gpu.ubo
    ∧ (visualize_albedo_map lib st).gpu.m_albedo_texture = st.gpu.m_albedo_texture
    ∧ (visualize_albedo_map lib st).gpu.m_depth_texture = st.gpu.m_depth_texture := by
  cases hs : lib.set_uniform Program.visualize Uniform.s_Texture <;>
    simp [visualize_albedo_map, log, glDrawArrays, emit, hs, h, use_program, glViewport,
      glDisable, bind_unit0]

/-- The events debug_draw may record. -/
theorem debug_draw_spec (st : App) :
    (debug_draw st).gpu = st.gpu
    ∧ (debug_draw st).m_requires_update = st.m_requires_update
    ∧ ∃ post, (debug_draw st).trace = st.trace ++ post
        ∧ ∀ e ∈ post, e = Event.debug_sphere ∨ e = Event.debug_frustum ∨ e = Event.debug_render := by
  unfold debug_draw
  by_cases hd : st.m_hit_distance ≠ INFINITY
  · rw [if_pos hd]
    cases h1 : st.m_visualize_hit_point <;> cases h2 : st.m_visualize_projection_frustum
    · exact ⟨by simp [log, h1, h2], by simp [log, h1, h2], [], by simp [log, h1, h2], by simp⟩
    · exact ⟨by simp [log, h1, h2], by simp [log, h1, h2],
        [Event.debug_frustum, Event.debug_render], by simp [log, h1, h2], by simp⟩
    · exact ⟨by simp [log, h1, h2], by simp [log, h1, h2],
        [Event.debug_sphere, Event.debug_render], by simp [log, h1, h2], by simp⟩
    · exact ⟨by simp [log, h1, h2], by simp [log, h1, h2],
        [Event.debug_sphere, Event.debug_frustum, Event.debug_render],
        by simp [log, h1, h2], by simp⟩
  · rw [if_neg hd]
    exact ⟨rfl, rfl, [], by simp, by simp⟩


theorem update_eq (lib : Lib) (inp : UiInput) (st : App) :
    update lib inp st = frame_tail lib (decal_apply_cycle lib (frame_head lib inp st)) := rfl

/-- What update_transforms writes. -/
theorem update_transforms_spec (lib : Lib) (camera : Camera) (st : App) :
    (update_transforms lib camera st).m_projector_view
        = glm_lookAt lib st.m_projector_pos st.m_hit_pos
          ((glm_rotate lib Mat4.identity (lib.radians st.m_projector_rotation)
            st.m_projector_dir).mulVec ⟨0, 1, 0, 0⟩).xyz
    ∧ (update_transforms lib camera st).m_projector_proj
        = glm_ortho (-st.m_projector_size) st.m_projector_size
          (-(st.m_projector_size * decal_aspect st)) (st.m_projector_size * decal_aspect st)
          (1 / 10) 1000
    ∧ (update_transforms lib camera st).m_global_uniforms.light_view_proj
        = if st.m_hit_distance ≠ INFINITY then
            (glm_ortho (-st.m_projector_size) st.m_projector_size
              (-(st.m_projector_size * decal_aspect st)) (st.m_projector_size * decal_aspect st)
              (1 / 10) 1000).mul
            (glm_lookAt lib st.m_projector_pos st.m_hit_pos
              ((glm_rotate lib Mat4.identity (lib.radians st.m_projector_rotation)
                st.m_projector_dir).mulVec ⟨0, 1, 0, 0⟩).xyz)
          else st.m_global_uniforms.light_view_proj := by
  by_cases h : st.m_hit_distance = INFINITY <;>
    simp [update_transforms, h, decal_aspect, decal_texture, CAMERA_FAR_PLANE]

theorem update_transforms_frame (lib : Lib) (camera : Camera) (st : App) :
    (update_transforms lib camera st).gpu = st.gpu
    ∧ (update_transforms lib camera st).trace = st.trace
    ∧ (update_transforms lib camera st).m_requires_update = st.m_requires_update
    ∧ (update_transforms lib camera st).m_debug_gui = st.m_debug_gui := by
  by_cases h : st.m_hit_distance = INFINITY <;> simp [update_transforms, h]

theorem update_camera_frame (lib : Lib) (st : App) :
    (update_camera lib st).gpu = st.gpu
    ∧ (update_camera lib st).trace = st.trace
    ∧ (update_camera lib st).m_requires_update = st.m_requires_update
    ∧ (update_camera lib st).m_debug_gui = st.m_debug_gui := by
  simp only [update_camera]
  exact update_transforms_frame lib _ _

theorem update_camera_light (lib : Lib) (st : App) :
    (update_camera lib st).m_global_uniforms.light_view_proj
        = if st.m_hit_distance ≠ INFINITY then
            (glm_ortho (-st.m_projector_size) st.m_projector_size
              (-(st.m_projector_size * decal_aspect st)) (st.m_projector_size * decal_aspect st)
              (1 / 10) 1000).mul
            (glm_lookAt lib st.m_projector_pos st.m_hit_pos
              ((glm_rotate lib Mat4.identity (lib.radians st.m_projector_rotation)
                st.m_projector_dir).mulVec ⟨0, 1, 0, 0⟩).xyz)
          else st.m_global_uniforms.light_view_proj := by
  simp only [update_camera]
  exact (update_transforms_spec lib _ _).2.2

theorem ui_requires_update (lib : Lib) (inp : UiInput) (st : App) :
    (ui lib inp st).m_requires_update = st.m_requires_update := by
  simp only [ui]
  cases st.m_randomize_decals <;> cases inp.clear_texture <;>
    simp [init_texture_requires_update]

theorem ui_trace (lib : Lib) (inp : UiInput) (st : App) :
    (ui lib inp st).trace
      = st.trace ++ (if inp.clear_texture then [Event.init_texture, Event.generate_mipmaps]
          else []) := by
  simp only [ui]
  cases st.m_randomize_decals <;> cases inp.clear_texture <;>
    simp [init_texture_trace]

theorem ui_gpu_of_no_clear (lib : Lib) (inp : UiInput) (st : App)
    (h : inp.clear_texture = false) : (ui lib inp st).gpu = st.gpu := by
  simp only [ui, h]
  cases st.m_randomize_decals <;> simp

theorem ui_gpu (lib : Lib) (inp : UiInput) (st : App) :
    (ui lib inp st).gpu.ubo = st.gpu.ubo
    ∧ ∀ d ∈ (ui lib inp st).gpu.m_albedo_texture.base.draws,
        d ∈ st.gpu.m_albedo_texture.base.draws ∨ d.program = some Program.texture_init := by
  cases hc : inp.clear_texture
  · rw [ui_gpu_of_no_clear lib inp st hc]
    exact ⟨rfl, fun d hd => Or.inl hd⟩
  · simp only [ui, hc, if_true]
    cases st.m_randomize_decals
    · exact ⟨(init_texture_gpu lib _).1, fun d hd => Or.inr ((init_texture_gpu lib _).2 d hd)⟩
    · exact ⟨(init_texture_gpu lib _).1, fun d hd => Or.inr ((init_texture_gpu lib _).2 d hd)⟩


/-! ## Lemmas: the three parts of a frame -/

theorem frame_head_requires_update (lib : Lib) (inp : UiInput) (st : App) :
    (frame_head lib inp st).m_requires_update = st.m_requires_update := by
  simp only [frame_head]
  split
  · rw [ui_requires_update]; exact (update_camera_frame lib st).2.2.1
  · exact (update_camera_frame lib st).2.2.1

theorem frame_head_trace (lib : Lib) (inp : UiInput) (st : App) :
    (frame_head lib inp st).trace
      = st.trace ++ (if (st.m_debug_gui && inp.clear_texture) = true then
          [Event.init_texture, Event.generate_mipmaps] else []) := by
  have hc := update_camera_frame lib st
  have hg : (update_global_uniforms (update_camera lib st).m_global_uniforms
      (update_camera lib st)).m_debug_gui = st.m_debug_gui := hc.2.2.2
  have ht : (update_global_uniforms (update_camera lib st).m_global_uniforms
      (update_camera lib st)).trace = st.trace := hc.2.1
  simp only [frame_head, hg]
  cases st.m_debug_gui <;> cases h : inp.clear_texture <;> simp [ui_trace, ht, h]

theorem frame_head_gpu (lib : Lib) (inp : UiInput) (st : App) :
    (frame_head lib inp st).gpu.ubo = (update_camera lib st).m_global_uniforms
    ∧ ((st.m_debug_gui && inp.clear_texture) = false →
        (frame_head lib inp st).gpu.m_albedo_texture = st.gpu.m_albedo_texture)
    ∧ ∀ d ∈ (frame_head lib inp st).gpu.m_albedo_texture.base.draws,
        d ∈ st.gpu.m_albedo_texture.base.draws ∨ d.program = some Program.texture_init := by
  have hc := update_camera_frame lib st
  have hg : (update_global_uniforms (update_camera lib st).m_global_uniforms
      (update_camera lib st)).m_debug_gui = st.m_debug_gui := hc.2.2.2
  have ha : (update_global_uniforms (update_camera lib st).m_global_uniforms
      (update_camera lib st)).gpu.m_albedo_texture = st.gpu.m_albedo_texture := by
    simp [update_global_uniforms, hc.1]
  have hu : (update_global_uniforms (update_camera lib st).m_global_uniforms
      (update_camera lib st)).gpu.ubo = (update_camera lib st).m_global_uniforms := rfl
  simp only [frame_head, hg]
  cases hgui : st.m_debug_gui
  · simp only [Bool.false_eq_true, if_false, Bool.false_and, forall_const]
    exact ⟨hu, ha, fun d hd => Or.inl (ha ▸ hd)⟩
  · simp only [if_true, Bool.true_and]
    refine ⟨?_, ?_, ?_⟩
    · rw [(ui_gpu lib inp _).1, hu]
    · intro hcl
      rw [ui_gpu_of_no_clear lib inp _ hcl, ha]
    · intro d hd
      have := (ui_gpu lib inp _).2 d hd
      rw [ha] at this
      exact this

theorem decal_apply_cycle_requires_update (lib : Lib) (st : App) :
    (decal_apply_cycle lib st).m_requires_update = false := by
  unfold decal_apply_cycle
  cases h : st.m_requires_update
  · simp [h]
  · simp [generate_mipmaps, log, apply_decals_requires_update,
      render_depth_map_requires_update]

theorem decal_apply_cycle_trace (lib : Lib) (st : App) :
    (decal_apply_cycle lib st).trace
      = st.trace ++ (if st.m_requires_update = true then
          [Event.render_depth_map, Event.apply_decals, Event.generate_mipmaps] else []) := by
  unfold decal_apply_cycle
  cases h : st.m_requires_update
  · simp
  · simp [generate_mipmaps_trace, apply_decals_trace, render_depth_map_trace]

theorem decal_apply_cycle_idle (lib : Lib) (st : App) (h : st.m_requires_update = false) :
    decal_apply_cycle lib st = st := by
  simp [decal_apply_cycle, h]

theorem decal_apply_cycle_gpu (lib : Lib) (st : App) :
    (decal_apply_cycle lib st).gpu.ubo = st.gpu.ubo
    ∧ (st.m_requires_update = true →
        ∀ d ∈ (decal_apply_cycle lib st).gpu.m_depth_texture.base.draws,
          d.uniforms = st.gpu.ubo)
    ∧ ∀ d ∈ (decal_apply_cycle lib st).gpu.m_albedo_texture.base.draws,
        d ∈ st.gpu.m_albedo_texture.base.draws ∨ d.uniforms = st.gpu.ubo := by
  cases h : st.m_requires_update
  · rw [decal_apply_cycle_idle lib st h]
    exact ⟨rfl, by simp, fun d hd => Or.inl hd⟩
  · have hd := render_depth_map_gpu lib { st with m_requires_update := false }
    have ha := apply_decals_gpu lib (render_depth_map lib { st with m_requires_update := false })
    simp only [decal_apply_cycle, h, if_true]
    refine ⟨?_, ?_, ?_⟩
    · show (apply_decals lib _).gpu.ubo = _
      rw [ha.1, hd.1]
    · intro _ d hmem
      have h1 : d ∈ (apply_decals lib
          (render_depth_map lib { st with m_requires_update := false })).gpu.m_depth_texture.base.draws :=
        hmem
      rw [ha.2.1] at h1
      exact hd.2.2 d h1
    · intro d hmem
      have h1 : d ∈ (apply_decals lib
          (render_depth_map lib { st with m_requires_update := false })).gpu.m_albedo_texture.base.draws :=
        hmem
      have h2 := ha.2.2 d h1
      rw [hd.2.1, hd.1] at h2
      exact h2

theorem frame_tail_requires_update (lib : Lib) (st : App) :
    (frame_tail lib st).m_requires_update = st.m_requires_update := by
  simp only [frame_tail]
  rw [(debug_draw_spec _).2.1]
  split
  · rw [visualize_albedo_map_requires_update, render_lit_scene_requires_update]
  · rw [render_lit_scene_requires_update]

theorem frame_tail_gpu (lib : Lib) (st : App) :
    (frame_tail lib st).gpu.ubo = st.gpu.ubo
    ∧ (frame_tail lib st).gpu.m_albedo_texture = st.gpu.m_albedo_texture
    ∧ (frame_tail lib st).gpu.m_depth_texture = st.gpu.m_depth_texture := by
  have hl := render_lit_scene_gpu lib st
  have hv := visualize_albedo_map_gpu lib (render_lit_scene lib st) hl.1
  simp only [frame_tail]
  rw [(debug_draw_spec _).1]
  split
  · exact ⟨hv.1.trans hl.2.1, hv.2.1.trans hl.2.2.1, hv.2.2.trans hl.2.2.2⟩
  · exact hl.2

theorem frame_tail_trace (lib : Lib) (st : App) :
    ∃ post, (frame_tail lib st).trace = st.trace ++ post ∧ ∀ e ∈ post, e ∈ frame_noise := by
  simp only [frame_tail]
  obtain ⟨post, hp, hall⟩ := (debug_draw_spec
    (if (render_lit_scene lib st).m_visualize_albedo_map = true then
      visualize_albedo_map lib (render_lit_scene lib st) else render_lit_scene lib st)).2.2
  have hn : ∀ e ∈ post, e ∈ frame_noise := by
    intro e he
    rcases hall e he with h | h | h <;> simp [h, frame_noise]
  by_cases hv : (render_lit_scene lib st).m_visualize_albedo_map = true
  · refine ⟨[Event.render_lit_scene, Event.visualize_albedo_map] ++ post, ?_, ?_⟩
    · rw [hp]; simp [hv, visualize_albedo_map_trace, render_lit_scene_trace]
    · intro e he
      rcases List.mem_append.1 he with h | h
      · simp at h; rcases h with h | h <;> simp [h, frame_noise]
      · exact hn e h
  · refine ⟨[Event.render_lit_scene] ++ post, ?_, ?_⟩
    · rw [hp]; simp [hv, render_lit_scene_trace]
    · intro e he
      rcases List.mem_append.1 he with h | h
      · simp at h; simp [h, frame_noise]
      · exact hn e h


/-! ## Picking -/

/-- What a left click whose ray hits the mesh stores. -/
theorem mouse_pressed_hit_fields (lib : Lib) (cursor : CursorPos) (rnd : RandomDraw) (st : App)
    (t : ℚ) (hhit : (lib.rtcIntersect1 (pick_ray lib cursor st)).ray.tfar = Float32.fin t) :
    (mouse_pressed lib cursor rnd GLFW_MOUSE_BUTTON_LEFT st).m_hit_pos
        = st.m_main_camera.m_position.add ((pick_ray_dir lib cursor st).scale t)
    ∧ (mouse_pressed lib cursor rnd GLFW_MOUSE_BUTTON_LEFT st).m_hit_normal
        = ⟨(lib.rtcIntersect1 (pick_ray lib cursor st)).hit.Ng_x,
           (lib.rtcIntersect1 (pick_ray lib cursor st)).hit.Ng_y,
           (lib.rtcIntersect1 (pick_ray lib cursor st)).hit.Ng_z⟩
    ∧ (mouse_pressed lib cursor rnd GLFW_MOUSE_BUTTON_LEFT st).m_hit_distance = Float32.fin t
    ∧ (mouse_pressed lib cursor rnd GLFW_MOUSE_BUTTON_LEFT st).m_requires_update = true
    ∧ (mouse_pressed lib cursor rnd GLFW_MOUSE_BUTTON_LEFT st).m_main_camera = st.m_main_camera
    ∧ (mouse_pressed lib cursor rnd GLFW_MOUSE_BUTTON_LEFT st).gpu = st.gpu
    ∧ (mouse_pressed lib cursor rnd GLFW_MOUSE_BUTTON_LEFT st).trace = st.trace
    ∧ (mouse_pressed lib cursor rnd GLFW_MOUSE_BUTTON_LEFT st).m_width = st.m_width
    ∧ (mouse_pressed lib cursor rnd GLFW_MOUSE_BUTTON_LEFT st).m_height = st.m_height
    ∧ (mouse_pressed lib cursor rnd GLFW_MOUSE_BUTTON_LEFT st).m_projector_pos
        = (st.m_main_camera.m_position.add ((pick_ray_dir lib cursor st).scale t)).add
          ((Vec3.mk (lib.rtcIntersect1 (pick_ray lib cursor st)).hit.Ng_x
            (lib.rtcIntersect1 (pick_ray lib cursor st)).hit.Ng_y
            (lib.rtcIntersect1 (pick_ray lib cursor st)).hit.Ng_z).scale 10)
    ∧ (mouse_pressed lib cursor rnd GLFW_MOUSE_BUTTON_LEFT st).m_projector_dir
        = (Vec3.mk (lib.rtcIntersect1 (pick_ray lib cursor st)).hit.Ng_x
            (lib.rtcIntersect1 (pick_ray lib cursor st)).hit.Ng_y
            (lib.rtcIntersect1 (pick_ray lib cursor st)).hit.Ng_z).neg := by
  simp only [mouse_pressed, hhit, left_ne_right, if_true, if_false]
  cases st.m_randomize_decals <;> simp [PROJECTOR_BACK_OFF_DISTANCE]

/-- Claim C1: after a left click whose ray hits the mesh, the projector position is
the hit position stored by that click plus the stored hit normal times 10.0, and
the projector direction is the negated stored hit normal. -/
theorem mouse_pressed_hit_projector (lib : Lib) (cursor : CursorPos) (rnd : RandomDraw)
    (st : App) (t : ℚ)
    (hhit : (lib.rtcIntersect1 (pick_ray lib cursor st)).ray.tfar = Float32.fin t) :
    (mouse_pressed lib cursor rnd GLFW_MOUSE_BUTTON_LEFT st).m_projector_pos
        = ((mouse_pressed lib cursor rnd GLFW_MOUSE_BUTTON_LEFT st).m_hit_pos).add
            (((mouse_pressed lib cursor rnd GLFW_MOUSE_BUTTON_LEFT st).m_hit_normal).scale 10)
    ∧ (mouse_pressed lib cursor rnd GLFW_MOUSE_BUTTON_LEFT st).m_projector_dir
        = ((mouse_pressed lib cursor rnd GLFW_MOUSE_BUTTON_LEFT st).m_hit_normal).neg := by
  have h := mouse_pressed_hit_fields lib cursor rnd st t hhit
  rw [h.1, h.2.1]
  exact h.2.2.2.2.2.2.2.2.2

/-- Witness of C1: the click in the middle of the window hits the quad at distance 5. -/
theorem mouse_pressed_hit_projector_witness :
    (quad_lib.rtcIntersect1 (pick_ray quad_lib cursor_hit quad_app)).ray.tfar = Float32.fin 5
    ∧ ((mouse_pressed quad_lib cursor_hit quad_draw GLFW_MOUSE_BUTTON_LEFT quad_app).m_projector_pos
        = ((mouse_pressed quad_lib cursor_hit quad_draw GLFW_MOUSE_BUTTON_LEFT quad_app).m_hit_pos).add
            (((mouse_pressed quad_lib cursor_hit quad_draw GLFW_MOUSE_BUTTON_LEFT
              quad_app).m_hit_normal).scale 10)
      ∧ (mouse_pressed quad_lib cursor_hit quad_draw GLFW_MOUSE_BUTTON_LEFT quad_app).m_projector_dir
        = ((mouse_pressed quad_lib cursor_hit quad_draw GLFW_MOUSE_BUTTON_LEFT
            quad_app).m_hit_normal).neg) :=
  ⟨by decide!, mouse_pressed_hit_projector quad_lib cursor_hit quad_draw quad_app 5 (by decide!)⟩

/-- Claim C2: after a left click whose ray hits the mesh at parameter `t`, the
stored hit distance is `t`, the stored hit position is the origin of the ray
handed to the intersector (the camera position) plus its direction times `t`,
and the stored hit normal is the geometric normal the intersector reports. -/
theorem mouse_pressed_hit_record (lib : Lib) (cursor : CursorPos) (rnd : RandomDraw)
    (st : App) (t : ℚ)
    (hhit : (lib.rtcIntersect1 (pick_ray lib cursor st)).ray.tfar = Float32.fin t) :
    (mouse_pressed lib cursor rnd GLFW_MOUSE_BUTTON_LEFT st).m_hit_distance = Float32.fin t
    ∧ (mouse_pressed lib cursor rnd GLFW_MOUSE_BUTTON_LEFT st).m_hit_pos
        = (Vec3.mk (pick_ray lib cursor st).org_x (pick_ray lib cursor st).org_y
            (pick_ray lib cursor st).org_z).add
          ((Vec3.mk (pick_ray lib cursor st).dir_x (pick_ray lib cursor st).dir_y
            (pick_ray lib cursor st).dir_z).scale t)
    ∧ Vec3.mk (pick_ray lib cursor st).org_x (pick_ray lib cursor st).org_y
        (pick_ray lib cursor st).org_z = st.m_main_camera.m_position
    ∧ (mouse_pressed lib cursor rnd GLFW_MOUSE_BUTTON_LEFT st).m_hit_normal
        = ⟨(lib.rtcIntersect1 (pick_ray lib cursor st)).hit.Ng_x,
           (lib.rtcIntersect1 (pick_ray lib cursor st)).hit.Ng_y,
           (lib.rtcIntersect1 (pick_ray lib cursor st)).hit.Ng_z⟩ := by
  have h := mouse_pressed_hit_fields lib cursor rnd st t hhit
  refine ⟨h.2.2.1, ?_, rfl, h.2.1⟩
  rw [h.1]
  rfl

/-- Witness of C2: the click in the middle of the window hits the quad at distance 5. -/
theorem mouse_pressed_hit_record_witness :
    (quad_lib.rtcIntersect1 (pick_ray quad_lib cursor_hit quad_app)).ray.tfar = Float32.fin 5
    ∧ (mouse_pressed quad_lib cursor_hit quad_draw GLFW_MOUSE_BUTTON_LEFT quad_app).m_hit_distance
        = Float32.fin 5
    ∧ (mouse_pressed quad_lib cursor_hit quad_draw GLFW_MOUSE_BUTTON_LEFT quad_app).m_hit_pos
        = ⟨0, 0, 0⟩
    ∧ (mouse_pressed quad_lib cursor_hit quad_draw GLFW_MOUSE_BUTTON_LEFT quad_app).m_hit_normal
        = ⟨0, 0, 1⟩ :=
  ⟨by decide!,
   (mouse_pressed_hit_record quad_lib cursor_hit quad_draw quad_app 5 (by decide!)).1,
   by decide!, by decide!⟩


/-- A left click whose ray misses the mesh returns the state it was given. -/
theorem mouse_pressed_miss_eq (lib : Lib) (cursor : CursorPos) (rnd : RandomDraw) (st : App)
    (hmiss : (lib.rtcIntersect1 (pick_ray lib cursor st)).ray.tfar = INFINITY) :
    mouse_pressed lib cursor rnd GLFW_MOUSE_BUTTON_LEFT st = st := by
  simp only [INFINITY] at hmiss
  simp only [mouse_pressed, hmiss, left_ne_right, if_true, if_false]

/-- The events of a frame with no pending apply: no depth pass, no stamp pass. -/
theorem update_idle_trace (lib : Lib) (inp : UiInput) (st : App)
    (hidle : st.m_requires_update = false) :
    ∃ evs, (update lib inp st).trace = st.trace ++ evs
      ∧ Event.render_depth_map ∉ evs ∧ Event.apply_decals ∉ evs := by
  obtain ⟨post, hp, hn⟩ := frame_tail_trace lib (decal_apply_cycle lib (frame_head lib inp st))
  have hh : (frame_head lib inp st).m_requires_update = false := by
    rw [frame_head_requires_update, hidle]
  rw [decal_apply_cycle_idle lib _ hh, frame_head_trace] at hp
  refine ⟨_, by rw [update_eq, decal_apply_cycle_idle lib _ hh, hp, List.append_assoc], ?_, ?_⟩
  · intro hmem
    rcases List.mem_append.1 hmem with h | h
    · split at h <;> simp at h
    · have := hn _ h
      simp [frame_noise] at this
  · intro hmem
    rcases List.mem_append.1 hmem with h | h
    · split at h <;> simp at h
    · have := hn _ h
      simp [frame_noise] at this

/-- A frame with no pending apply and no click on Clear Texture keeps the canvas. -/
theorem update_idle_canvas (lib : Lib) (inp : UiInput) (st : App)
    (hidle : st.m_requires_update = false)
    (hclear : (st.m_debug_gui && inp.clear_texture) = false) :
    (update lib inp st).gpu.m_albedo_texture = st.gpu.m_albedo_texture := by
  have hh : (frame_head lib inp st).m_requires_update = false := by
    rw [frame_head_requires_update, hidle]
  rw [update_eq, decal_apply_cycle_idle lib _ hh, (frame_tail_gpu lib _).2.1]
  exact (frame_head_gpu lib inp st).2.1 hclear

/-- Every frame leaves the requires-update flag clear. -/
theorem update_requires_update (lib : Lib) (inp : UiInput) (st : App) :
    (update lib inp st).m_requires_update = false := by
  rw [update_eq, frame_tail_requires_update, decal_apply_cycle_requires_update]

/-- Claim C3: a left click whose ray misses the mesh changes nothing: the state
after mouse_pressed is the state before it (hit position, normal and distance,
projector position, direction, size and rotation, selected decal and the
requires-update flag included, whatever randomize-on-pick is).  So, when no
apply was pending, the next update records no depth pass and no stamp pass,
and, unless the user clicks Clear Texture in that frame, leaves the albedo
canvas as it was. -/
theorem mouse_pressed_miss_no_effect (lib : Lib) (cursor : CursorPos) (rnd : RandomDraw)
    (st : App)
    (hmiss : (lib.rtcIntersect1 (pick_ray lib cursor st)).ray.tfar = INFINITY) :
    mouse_pressed lib cursor rnd GLFW_MOUSE_BUTTON_LEFT st = st
    ∧ (st.m_requires_update = false → ∀ inp : UiInput,
        (∃ evs,
          (update lib inp (mouse_pressed lib cursor rnd GLFW_MOUSE_BUTTON_LEFT st)).trace
            = st.trace ++ evs
          ∧ Event.render_depth_map ∉ evs ∧ Event.apply_decals ∉ evs)
        ∧ ((st.m_debug_gui && inp.clear_texture) = false →
          (update lib inp
            (mouse_pressed lib cursor rnd GLFW_MOUSE_BUTTON_LEFT st)).gpu.m_albedo_texture
            = st.gpu.m_albedo_texture)) := by
  rw [mouse_pressed_miss_eq lib cursor rnd st hmiss]
  exact ⟨rfl, fun hidle inp =>
    ⟨update_idle_trace lib inp st hidle, update_idle_canvas lib inp st hidle⟩⟩

/-- Witness of C3: the click in the corner of the window misses the quad. -/
theorem mouse_pressed_miss_no_effect_witness :
    (quad_lib.rtcIntersect1 (pick_ray quad_lib cursor_miss quad_stamped)).ray.tfar = INFINITY
    ∧ quad_stamped.m_requires_update = false
    ∧ (quad_stamped.m_debug_gui && UiInput.idle.clear_texture) = false
    ∧ mouse_pressed quad_lib cursor_miss quad_draw GLFW_MOUSE_BUTTON_LEFT quad_stamped
        = quad_stamped
    ∧ (update quad_lib UiInput.idle
        (mouse_pressed quad_lib cursor_miss quad_draw GLFW_MOUSE_BUTTON_LEFT
          quad_stamped)).gpu.m_albedo_texture = quad_stamped.gpu.m_albedo_texture :=
  ⟨by decide!, by decide!, by decide!,
   (mouse_pressed_miss_no_effect quad_lib cursor_miss quad_draw quad_stamped (by decide!)).1,
   ((mouse_pressed_miss_no_effect quad_lib cursor_miss quad_draw quad_stamped (by decide!)).2
      (by decide!) UiInput.idle).2 (by decide!)⟩

/-- Counterexample to C4: after a click that hits the quad at distance 5, a click
that misses leaves the stored hit distance at 5, not at +infinity. -/
theorem miss_after_hit_keeps_distance :
    (quad_lib.rtcIntersect1 (pick_ray quad_lib cursor_hit quad_app)).ray.tfar = Float32.fin 5
    ∧ (quad_lib.rtcIntersect1 (pick_ray quad_lib cursor_miss
        (mouse_pressed quad_lib cursor_hit quad_draw GLFW_MOUSE_BUTTON_LEFT quad_app))).ray.tfar
        = INFINITY
    ∧ (mouse_pressed quad_lib cursor_miss quad_draw GLFW_MOUSE_BUTTON_LEFT
        (mouse_pressed quad_lib cursor_hit quad_draw GLFW_MOUSE_BUTTON_LEFT
          quad_app)).m_hit_distance = Float32.fin 5
    ∧ (mouse_pressed quad_lib cursor_miss quad_draw GLFW_MOUSE_BUTTON_LEFT
        (mouse_pressed quad_lib cursor_hit quad_draw GLFW_MOUSE_BUTTON_LEFT
          quad_app)).m_hit_distance ≠ INFINITY := by
  refine ⟨by decide!, by decide!, by decide!, by decide!⟩

/-- Claim C4, amended: after a left click whose ray misses the mesh the stored
hit distance is the one held before the click.  It is +infinity when it was
+infinity before (no click has hit since construction), and it is still the
distance of the last hit when an earlier click hit the mesh. -/
theorem mouse_pressed_miss_hit_distance (lib : Lib) (cursor : CursorPos) (rnd : RandomDraw)
    (st : App)
    (hmiss : (lib.rtcIntersect1 (pick_ray lib cursor st)).ray.tfar = INFINITY) :
    (mouse_pressed lib cursor rnd GLFW_MOUSE_BUTTON_LEFT st).m_hit_distance = st.m_hit_distance
    ∧ (st.m_hit_distance = INFINITY →
        (mouse_pressed lib cursor rnd GLFW_MOUSE_BUTTON_LEFT st).m_hit_distance = INFINITY)
    ∧ (∀ t : ℚ, st.m_hit_distance = Float32.fin t →
        (mouse_pressed lib cursor rnd GLFW_MOUSE_BUTTON_LEFT st).m_hit_distance = Float32.fin t)
    ∧ ∀ raw : App, (construct raw).m_hit_distance = INFINITY := by
  rw [mouse_pressed_miss_eq lib cursor rnd st hmiss]
  exact ⟨rfl, fun h => h, fun _ h => h, fun _ => rfl⟩

/-- Witness of the amended C4: a miss on the freshly initialised application. -/
theorem mouse_pressed_miss_hit_distance_witness :
    (quad_lib.rtcIntersect1 (pick_ray quad_lib cursor_miss quad_app)).ray.tfar = INFINITY
    ∧ quad_app.m_hit_distance = INFINITY
    ∧ (mouse_pressed quad_lib cursor_miss quad_draw GLFW_MOUSE_BUTTON_LEFT quad_app).m_hit_distance
        = INFINITY :=
  ⟨by decide!, by decide!,
   (mouse_pressed_miss_hit_distance quad_lib cursor_miss quad_draw quad_app (by decide!)).2.1
     (by decide!)⟩


/-! ## Configuration surface and decal-apply cycle -/

/-- Counterexample to C5: the application holds a valid hit record (distance 5)
and no apply is pending; the user drags the decal size from 10 to 5.  After ui
the size is 5 and the requires-update flag is still clear; the frame that
processes the edit and the frame after it record a lit-scene pass and the canvas
view only, no depth pass and no stamp pass. -/
theorem ui_edit_triggers_no_cycle :
    quad_stamped.m_hit_distance = Float32.fin 5
    ∧ quad_stamped.m_requires_update = false
    ∧ quad_stamped.m_projector_size = 10
    ∧ (ui quad_lib ui_size_5 quad_stamped).m_projector_size = 5
    ∧ (ui quad_lib ui_size_5 quad_stamped).m_requires_update = false
    ∧ (update quad_lib ui_size_5 quad_stamped).trace
        = quad_stamped.trace ++ [Event.render_lit_scene, Event.visualize_albedo_map]
    ∧ (update quad_lib UiInput.idle (update quad_lib ui_size_5 quad_stamped)).trace
        = quad_stamped.trace ++ [Event.render_lit_scene, Event.visualize_albedo_map,
            Event.render_lit_scene, Event.visualize_albedo_map] := by
  refine ⟨by decide!, by decide!, by decide!, by decide!, by decide!, by decide!, by decide!⟩

/-- Claim C5, amended: a user edit of the decal size, the decal rotation or the
selected decal index through ui stores the edited value (the three widgets are
shown when randomize-on-pick is off) and leaves the requires-update flag as it
was, whether a valid hit record is held or not: the edit triggers no decal-apply
cycle.  When the flag is clear, the update that processes the edit records no
depth pass and no stamp pass and leaves the flag clear. -/
theorem ui_edit_keeps_requires_update (lib : Lib) (inp : UiInput) (st : App) :
    (ui lib inp st).m_requires_update = st.m_requires_update
    ∧ (st.m_randomize_decals = false →
        (ui lib inp st).m_projector_rotation
          = DragFloat st.m_projector_rotation inp.decal_rotation (-180) 180
        ∧ (ui lib inp st).m_projector_size
          = DragFloat st.m_projector_size inp.decal_size (1 / 10) 20
        ∧ (ui lib inp st).m_selected_decal = ListBox st.m_selected_decal inp.selected_decal 4)
    ∧ (st.m_requires_update = false →
        (update lib inp st).m_requires_update = false
        ∧ ∃ evs, (update lib inp st).trace = st.trace ++ evs
          ∧ Event.render_depth_map ∉ evs ∧ Event.apply_decals ∉ evs) := by
  refine ⟨ui_requires_update lib inp st, ?_, ?_⟩
  · intro hr
    simp only [ui, hr]
    cases inp.clear_texture <;> simp [init_texture, generate_mipmaps, log]
  · intro hidle
    exact ⟨update_requires_update lib inp st, update_idle_trace lib inp st hidle⟩

/-- Witness of the amended C5: the size edit on the stamped quad. -/
theorem ui_edit_keeps_requires_update_witness :
    quad_stamped.m_randomize_decals = false
    ∧ quad_stamped.m_requires_update = false
    ∧ (ui quad_lib ui_size_5 quad_stamped).m_projector_size
        = DragFloat quad_stamped.m_projector_size ui_size_5.decal_size (1 / 10) 20
    ∧ (update quad_lib ui_size_5 quad_stamped).m_requires_update = false :=
  ⟨by decide!, by decide!,
   ((ui_edit_keeps_requires_update quad_lib ui_size_5 quad_stamped).2.1 (by decide!)).2.1,
   ((ui_edit_keeps_requires_update quad_lib ui_size_5 quad_stamped).2.2 (by decide!)).1⟩

/-- The events of any frame: the pass of a Clear Texture click, then the
decal-apply cycle if an apply is pending, then passes that touch neither. -/
theorem update_trace (lib : Lib) (inp : UiInput) (st : App) :
    ∃ post, (update lib inp st).trace
        = st.trace
          ++ (if (st.m_debug_gui && inp.clear_texture) = true then
                [Event.init_texture, Event.generate_mipmaps] else [])
          ++ (if st.m_requires_update = true then
                [Event.render_depth_map, Event.apply_decals, Event.generate_mipmaps] else [])
          ++ post
      ∧ ∀ e ∈ post, e ∈ frame_noise := by
  obtain ⟨post, hp, hn⟩ := frame_tail_trace lib (decal_apply_cycle lib (frame_head lib inp st))
  refine ⟨post, ?_, hn⟩
  rw [update_eq, hp, decal_apply_cycle_trace, frame_head_trace, frame_head_requires_update]

/-- Claim C7: update called with the requires-update flag set records exactly one
depth pass, then one stamp pass, then one regeneration of the canvas mip chain,
in that order, and leaves the flag clear; called with the flag clear it records
none of the three and leaves the flag clear.  The only other events of the frame
are the lit-scene pass and the debug views, after the cycle, and, before it, the
init_texture pass (with its own mip regeneration) when the user clicks Clear
Texture in that frame. -/
theorem update_cycle_order (lib : Lib) (inp : UiInput) (st : App) :
    (update lib inp st).m_requires_update = false
    ∧ ∃ post, (update lib inp st).trace
        = st.trace
          ++ (if (st.m_debug_gui && inp.clear_texture) = true then
                [Event.init_texture, Event.generate_mipmaps] else [])
          ++ (if st.m_requires_update = true then
                [Event.render_depth_map, Event.apply_decals, Event.generate_mipmaps] else [])
          ++ post
      ∧ Event.render_depth_map ∉ post ∧ Event.apply_decals ∉ post
      ∧ Event.generate_mipmaps ∉ post ∧ Event.init_texture ∉ post := by
  refine ⟨update_requires_update lib inp st, ?_⟩
  obtain ⟨post, hp, hn⟩ := update_trace lib inp st
  refine ⟨post, hp, ?_, ?_, ?_, ?_⟩ <;>
    (intro h
     have := hn _ h
     simp [frame_noise] at this)


/-- Claim C6: when two left clicks that both hit the mesh come before the next
update, that update records exactly one decal-apply cycle (one depth pass, one
stamp pass, one mip regeneration); the light view-projection in the uniform
buffer, which every draw call of its depth pass carries and every draw call it
adds to the canvas with the decal program carries, is the projector built from
the hit position and normal of the second click; and the update after it
records no cycle. -/
theorem two_hits_one_cycle (lib : Lib) (c1 c2 : CursorPos) (r1 r2 : RandomDraw) (st : App)
    (t1 t2 : ℚ) (inp inp' : UiInput)
    (h1 : (lib.rtcIntersect1 (pick_ray lib c1 st)).ray.tfar = Float32.fin t1)
    (h2 : (lib.rtcIntersect1 (pick_ray lib c2
        (mouse_pressed lib c1 r1 GLFW_MOUSE_BUTTON_LEFT st))).ray.tfar = Float32.fin t2) :
    let s1 := mouse_pressed lib c1 r1 GLFW_MOUSE_BUTTON_LEFT st
    let s2 := mouse_pressed lib c2 r2 GLFW_MOUSE_BUTTON_LEFT s1
    let s3 := update lib inp s2
    let s4 := update lib inp' s3
    let hit := lib.rtcIntersect1 (pick_ray lib c2 s1)
    let position := st.m_main_camera.m_position.add ((pick_ray_dir lib c2 s1).scale t2)
    let normal : Vec3 := ⟨hit.hit.Ng_x, hit.hit.Ng_y, hit.hit.Ng_z⟩
    let projector := ProjectorBuilder lib position normal s2.m_projector_size
      s2.m_projector_rotation (decal_aspect s2)
    (∃ post, s3.trace
        = s2.trace
          ++ (if (s2.m_debug_gui && inp.clear_texture) = true then
                [Event.init_texture, Event.generate_mipmaps] else [])
          ++ [Event.render_depth_map, Event.apply_decals, Event.generate_mipmaps]
          ++ post
      ∧ ∀ e ∈ post, e ∈ frame_noise)
    ∧ s3.gpu.ubo.light_view_proj = projector.2.mul projector.1
    ∧ (∀ d ∈ s3.gpu.m_depth_texture.base.draws,
        d.uniforms.light_view_proj = projector.2.mul projector.1)
    ∧ (∀ d ∈ s3.gpu.m_albedo_texture.base.draws,
        d.program = some Program.decal →
          d ∈ s2.gpu.m_albedo_texture.base.draws
          ∨ d.uniforms.light_view_proj = projector.2.mul projector.1)
    ∧ s3.m_requires_update = false
    ∧ ∃ post, s4.trace
        = s3.trace
          ++ (if (s3.m_debug_gui && inp'.clear_texture) = true then
                [Event.init_texture, Event.generate_mipmaps] else [])
          ++ post
      ∧ ∀ e ∈ post, e ∈ frame_noise := by
  intro s1 s2 s3 s4 hit position normal projector
  have f1 := mouse_pressed_hit_fields lib c1 r1 st t1 h1
  have f2 := mouse_pressed_hit_fields lib c2 r2 s1 t2 h2
  have p2 := f2.2.2.2.2.2.2.2.2.2
  have hflag : s2.m_requires_update = true := f2.2.2.2.1
  have hdist : s2.m_hit_distance ≠ INFINITY := by
    have : s2.m_hit_distance = Float32.fin t2 := f2.2.2.1
    rw [this]; simp [INFINITY]
  -- the light view-projection uploaded by the frame
  have hubo : (frame_head lib inp s2).gpu.ubo.light_view_proj
      = projector.2.mul projector.1 := by
    rw [(frame_head_gpu lib inp s2).1, update_camera_light, if_pos hdist]
    have hpos : s2.m_hit_pos = position := by
      have := f2.1
      rw [f1.2.2.2.2.1] at this
      exact this
    have hnor : s2.m_hit_normal = normal := f2.2.1
    have hpp : s2.m_projector_pos = position.add (normal.scale 10) := by
      have := p2.1
      rw [f1.2.2.2.2.1] at this
      exact this
    have hpd : s2.m_projector_dir = normal.neg := p2.2
    simp only [projector, ProjectorBuilder]
    rw [hpp, hpd, hpos]
  have hcyc := decal_apply_cycle_gpu lib (frame_head lib inp s2)
  have hhead : (frame_head lib inp s2).m_requires_update = true := by
    rw [frame_head_requires_update]; exact hflag
  have htail := frame_tail_gpu lib (decal_apply_cycle lib (frame_head lib inp s2))
  have hs3 : s3 = frame_tail lib (decal_apply_cycle lib (frame_head lib inp s2)) :=
    update_eq lib inp s2
  refine ⟨?_, ?_, ?_, ?_, update_requires_update lib inp s2, ?_⟩
  · obtain ⟨post, hp, hn⟩ := update_trace lib inp s2
    refine ⟨post, ?_, hn⟩
    rw [hp, if_pos hflag]
  · rw [hs3, htail.1, hcyc.1, hubo]
  · intro d hd
    rw [hs3, htail.2.2] at hd
    rw [hcyc.2.1 hhead d hd, hubo]
  · intro d hd hprog
    rw [hs3, htail.2.1] at hd
    rcases hcyc.2.2 d hd with hold | hnew
    · rcases (frame_head_gpu lib inp s2).2.2 d hold with h | h
      · exact Or.inl h
      · rw [hprog] at h
        simp at h
    · right
      rw [hnew, hubo]
  · obtain ⟨post, hp, hn⟩ := update_trace lib inp' s3
    refine ⟨post, ?_, hn⟩
    rw [hp, update_requires_update lib inp s2]
    simp

/-- Witness of C6: two clicks in the middle of the window, both hit the quad. -/
theorem two_hits_one_cycle_witness :
    (quad_lib.rtcIntersect1 (pick_ray quad_lib cursor_hit quad_app)).ray.tfar = Float32.fin 5
    ∧ (quad_lib.rtcIntersect1 (pick_ray quad_lib cursor_hit
        (mouse_pressed quad_lib cursor_hit quad_draw GLFW_MOUSE_BUTTON_LEFT quad_app))).ray.tfar
        = Float32.fin 5
    ∧ (update quad_lib UiInput.idle
        (mouse_pressed quad_lib cursor_hit quad_draw GLFW_MOUSE_BUTTON_LEFT
          (mouse_pressed quad_lib cursor_hit quad_draw GLFW_MOUSE_BUTTON_LEFT
            quad_app))).m_requires_update = false :=
  ⟨by decide!, by decide!,
   (two_hits_one_cycle quad_lib cursor_hit cursor_hit quad_draw quad_draw quad_app 5 5
      UiInput.idle UiInput.idle (by decide!) (by decide!)).2.2.2.2.1⟩


/-! ## Projector -/

/-- Claim C8: for a projector size `s > 0` and a selected decal of width `w > 0`
and height `h`, update_transforms builds the projection
`ortho(-s, s, -s·(h/w), s·(h/w), 0.1, 1000)`.  The half-height over the half-width
is `h/w`; and when `h > 0` a point lies inside the footprint (clip coordinates
within -1 and 1) exactly when `|x| ≤ s` and `|y| ≤ s·(h/w)`. -/
theorem update_transforms_ortho (lib : Lib) (camera : Camera) (st : App)
    (hs : 0 < st.m_projector_size)
    (hw : 0 < (decal_texture st st.m_selected_decal).width) :
    let s := st.m_projector_size
    let w : ℚ := ((decal_texture st st.m_selected_decal).width : ℚ)
    let h : ℚ := ((decal_texture st st.m_selected_decal).height : ℚ)
    let proj := (update_transforms lib camera st).m_projector_proj
    proj = glm_ortho (-s) s (-(s * (h / w))) (s * (h / w)) (1 / 10) 1000
    ∧ (s * (h / w) - -(s * (h / w))) / (s - -s) = h / w
    ∧ (0 < h → ∀ x y z : ℚ,
        (|(proj.mulVec ⟨x, y, z, 1⟩).x| ≤ 1 ↔ |x| ≤ s)
        ∧ (|(proj.mulVec ⟨x, y, z, 1⟩).y| ≤ 1 ↔ |y| ≤ s * (h / w))) := by
  intro s w h proj
  have hproj : proj = glm_ortho (-s) s (-(s * (h / w))) (s * (h / w)) (1 / 10) 1000 :=
    (update_transforms_spec lib camera st).2.1
  have hw' : (0 : ℚ) < w := Nat.cast_pos.mpr hw
  refine ⟨hproj, ?_, ?_⟩
  · have hs' : s ≠ 0 := ne_of_gt hs
    field_simp
    ring
  · intro hh x y z
    have hp : 0 < s * (h / w) := mul_pos hs (div_pos hh hw')
    have hx : (proj.mulVec ⟨x, y, z, 1⟩).x = x / s := by
      rw [hproj]
      simp only [glm_ortho, Mat4.mulVec, Vec4.add, Vec4.scale]
      field_simp
      ring
    have hy : (proj.mulVec ⟨x, y, z, 1⟩).y = y / (s * (h / w)) := by
      rw [hproj]
      simp only [glm_ortho, Mat4.mulVec, Vec4.add, Vec4.scale]
      have hne : s * (h / w) ≠ 0 := ne_of_gt hp
      have h2 : s * (h / w) - -(s * (h / w)) ≠ 0 := by
        have : s * (h / w) - -(s * (h / w)) = 2 * (s * (h / w)) := by ring
        rw [this]; positivity
      field_simp
      ring
    rw [hx, hy, abs_div, abs_div, abs_of_pos hs, abs_of_pos hp, div_le_one hs, div_le_one hp]
    exact ⟨Iff.rfl, Iff.rfl⟩

/-- Witness of C8: the stamped quad has size 10 and a 512 by 256 decal. -/
theorem update_transforms_ortho_witness :
    0 < quad_stamped.m_projector_size
    ∧ 0 < (decal_texture quad_stamped quad_stamped.m_selected_decal).width
    ∧ (update_transforms quad_lib quad_camera quad_stamped).m_projector_proj
        = glm_ortho (-10) 10 (-5) 5 (1 / 10) 1000 :=
  ⟨by decide!, by decide!,
   (update_transforms_ortho quad_lib quad_camera quad_stamped (by decide!) (by decide!)).1.trans
     (by decide!)⟩

/-- Counterexample to C9: no valid hit record exists (the hit distance is
+infinity, no click was made), the previous frame left the projection built for
size 10 in `m_projector_proj`, the user has since dragged the size to 5:
update_transforms replaces the projection matrix by the one for size 5. -/
theorem update_transforms_miss_rebuilds :
    quad_resized_decal.m_hit_distance = INFINITY
    ∧ quad_resized_decal.m_projector_proj = glm_ortho (-10) 10 (-5) 5 (1 / 10) 1000
    ∧ (update_transforms quad_lib quad_resized_decal.m_main_camera
        quad_resized_decal).m_projector_proj
        = glm_ortho (-5) 5 (-(5 / 2)) (5 / 2) (1 / 10) 1000
    ∧ (update_transforms quad_lib quad_resized_decal.m_main_camera
        quad_resized_decal).m_projector_proj ≠ quad_resized_decal.m_projector_proj := by
  refine ⟨by decide!, by decide!, by decide!, by decide!⟩

/-- Claim C9, amended: when no valid hit record exists (the hit distance is
+infinity) update_transforms keeps the light view-projection of the global
uniforms; the projector view matrix and the projector projection matrix are
rebuilt from the current members on every call. -/
theorem update_transforms_miss (lib : Lib) (camera : Camera) (st : App)
    (hmiss : st.m_hit_distance = INFINITY) :
    (update_transforms lib camera st).m_global_uniforms.light_view_proj
        = st.m_global_uniforms.light_view_proj
    ∧ (update_transforms lib camera st).m_projector_view
        = glm_lookAt lib st.m_projector_pos st.m_hit_pos
          ((glm_rotate lib Mat4.identity (lib.radians st.m_projector_rotation)
            st.m_projector_dir).mulVec ⟨0, 1, 0, 0⟩).xyz
    ∧ (update_transforms lib camera st).m_projector_proj
        = glm_ortho (-st.m_projector_size) st.m_projector_size
          (-(st.m_projector_size * decal_aspect st)) (st.m_projector_size * decal_aspect st)
          (1 / 10) 1000 := by
  have h := update_transforms_spec lib camera st
  refine ⟨?_, h.1, h.2.1⟩
  rw [h.2.2, if_neg (by simp [hmiss])]

/-- Witness of the amended C9: the application without any click. -/
theorem update_transforms_miss_witness :
    quad_resized_decal.m_hit_distance = INFINITY
    ∧ (update_transforms quad_lib quad_camera quad_resized_decal).m_global_uniforms.light_view_proj
        = quad_resized_decal.m_global_uniforms.light_view_proj :=
  ⟨by decide!, (update_transforms_miss quad_lib quad_camera quad_resized_decal (by decide!)).1⟩

/-! ## Canvas lifetime -/

/-- Failing input of C10: after init, the user switches randomize-on-pick off,
clicks on the quad, and a frame stamps the decal: the canvas (texture 0) was
cleared and holds the init pass and one stamp.  window_resized then replaces it
by a new texture object (texture 2) that was never cleared and holds no draw
call and no mip chain, and records no init_texture pass. -/
theorem window_resized_discards_canvas :
    run quad_lib quad_app
        [Call.update ui_randomize_click,
         Call.mouse_pressed cursor_hit quad_draw GLFW_MOUSE_BUTTON_LEFT,
         Call.update UiInput.idle] = quad_stamped
    ∧ quad_stamped.gpu.m_albedo_texture.id = 0
    ∧ quad_stamped.gpu.m_albedo_texture.base.cleared = true
    ∧ quad_stamped.gpu.m_albedo_texture.base.draws.length = 2
    ∧ (run quad_lib quad_app
        [Call.update ui_randomize_click,
         Call.mouse_pressed cursor_hit quad_draw GLFW_MOUSE_BUTTON_LEFT,
         Call.update UiInput.idle,
         Call.window_resized]).gpu.m_albedo_texture = ⟨2, ⟨false, []⟩, none⟩
    ∧ (window_resized quad_lib quad_stamped).trace
        = quad_stamped.trace ++ [Event.create_framebuffers] := by
  refine ⟨rfl, by decide!, by decide!, by decide!, by decide!, by decide!⟩


/-! ## Clearing the canvas -/

theorem current_call_canvas (c b v : Nat) (g : Gpu) (t : Texture2D) :
    current_call true c b v { g with m_albedo_texture := t } = current_call true c b v g := rfl

/-- The draw loop of init_texture appends one draw call for every submesh, each
issued under the pipeline state the loop starts with. -/
theorem init_loop_eq (l : List SubMesh) :
    ∀ g : Gpu, g.framebuffer = Target.albedo_fbo →
      l.foldl (fun g submesh =>
          glDrawElementsBaseVertex submesh.index_count submesh.base_index submesh.base_vertex g)
        g
      = { g with m_albedo_texture :=
          { g.m_albedo_texture with
            base :=
              { g.m_albedo_texture.base with
                draws := g.m_albedo_texture.base.draws ++ l.map (fun submesh =>
                  current_call true submesh.index_count submesh.base_index submesh.base_vertex
                    g) } } } := by
  induction l with
  | nil => intro g _; simp
  | cons a l ih =>
    intro g hg
    have hstep : glDrawElementsBaseVertex a.index_count a.base_index a.base_vertex g
        = { g with m_albedo_texture :=
            { g.m_albedo_texture with
              base := g.m_albedo_texture.base.draw
                (current_call true a.index_count a.base_index a.base_vertex g) } } := by
      unfold glDrawElementsBaseVertex emit; rw [hg]
    have hih := ih (glDrawElementsBaseVertex a.index_count a.base_index a.base_vertex g)
      (by rw [draw_framebuffer]; exact hg)
    rw [List.foldl_cons, hih, hstep]
    simp [Image.draw, current_call]

/-- The GPU state init_texture leaves. -/
theorem init_texture_gpu_eq (lib : Lib) (st : App) :
    (init_texture lib st).gpu.m_albedo_texture
        = ⟨st.gpu.m_albedo_texture.id, init_texture_image lib st,
           some (init_texture_image lib st)⟩
    ∧ (init_texture lib st).gpu.unit0 = st.gpu.unit0
    ∧ (init_texture lib st).gpu.unit1 = st.gpu.unit1
    ∧ (init_texture lib st).gpu.caps
        = if st.m_enable_conservative_raster then
            if lib.GLAD_GL_NV_conservative_raster then
              (init_texture_caps lib st).set Cap.GL_CONSERVATIVE_RASTERIZATION_NV false
            else if lib.GLAD_GL_INTEL_conservative_rasterization then
              (init_texture_caps lib st).set Cap.GL_INTEL_conservative_rasterization false
            else init_texture_caps lib st
          else init_texture_caps lib st := by
  simp only [init_texture, generate_mipmaps, log]
  rw [init_loop_eq _ _ (by simp [set_u_Model, use_program, glClear, glViewport, bind_framebuffer])]
  cases h1 : st.m_enable_conservative_raster <;>
    cases h2 : lib.GLAD_GL_NV_conservative_raster <;>
    cases h3 : lib.GLAD_GL_INTEL_conservative_rasterization <;>
    simp [init_texture_image, init_texture_call, init_texture_caps, current_call, set_u_Model,
      use_program, glClear, glViewport, bind_framebuffer, glDisable, glEnable, Image.clear,
      Caps.set, h1, h2, h3]

theorem init_texture_caps_again (lib : Lib) (st : App) :
    init_texture_caps lib (init_texture lib st) = init_texture_caps lib st := by
  have h := (init_texture_gpu_eq lib st).2.2.2
  have hm : (init_texture lib st).m_enable_conservative_raster
      = st.m_enable_conservative_raster := rfl
  unfold init_texture_caps at h ⊢
  rw [hm, h]
  cases h1 : st.m_enable_conservative_raster <;>
    cases h2 : lib.GLAD_GL_NV_conservative_raster <;>
    cases h3 : lib.GLAD_GL_INTEL_conservative_rasterization <;> simp [Caps.set]

/-- Claim C11: init_texture erases what the canvas held.  From two states that
differ in the canvas contents only it produces the same canvas: cleared, then
one draw call per submesh with the texture_init program and blending off, and
a mip chain generated from exactly that.  Running it twice gives the same
canvas as running it once. -/
theorem init_texture_erases (lib : Lib) (st : App) (img1 img2 : Image)
    (mips1 mips2 : Option Image) :
    (init_texture lib
        { st with gpu := { st.gpu with m_albedo_texture :=
          { st.gpu.m_albedo_texture with base := img1, mips := mips1 } } }).gpu.m_albedo_texture
      = (init_texture lib
        { st with gpu := { st.gpu with m_albedo_texture :=
          { st.gpu.m_albedo_texture with base := img2, mips := mips2 } } }).gpu.m_albedo_texture
    ∧ (init_texture lib st).gpu.m_albedo_texture.base.cleared = true
    ∧ (init_texture lib st).gpu.m_albedo_texture.base.draws.length
        = st.m_mesh.sub_meshes.length
    ∧ (∀ d ∈ (init_texture lib st).gpu.m_albedo_texture.base.draws,
        d.program = some Program.texture_init ∧ d.caps.blend = false)
    ∧ (init_texture lib st).gpu.m_albedo_texture.mips
        = some (init_texture lib st).gpu.m_albedo_texture.base
    ∧ (init_texture lib (init_texture lib st)).gpu.m_albedo_texture
        = (init_texture lib st).gpu.m_albedo_texture := by
  have h := init_texture_gpu_eq lib st
  refine ⟨?_, ?_, ?_, ?_, ?_, ?_⟩
  · rw [(init_texture_gpu_eq lib _).1, (init_texture_gpu_eq lib _).1]
    rfl
  · rw [h.1]; rfl
  · rw [h.1]; simp [init_texture_image]
  · rw [h.1]
    intro d hd
    simp only [init_texture_image, List.mem_map] at hd
    obtain ⟨sm, _, rfl⟩ := hd
    refine ⟨rfl, ?_⟩
    simp only [init_texture_call, init_texture_caps]
    split_ifs <;> simp [Caps.set]
  · rw [h.1]
  · have h2 := init_texture_gpu_eq lib (init_texture lib st)
    rw [h2.1, h.1]
    have hu : (init_texture lib st).gpu.ubo = st.gpu.ubo := (init_texture_gpu lib st).1
    have ht : (init_texture lib st).m_transform = st.m_transform := rfl
    have hmesh : (init_texture lib st).m_mesh = st.m_mesh := rfl
    have hcall : init_texture_call lib (init_texture lib st) = init_texture_call lib st := by
      funext sm
      simp only [init_texture_call, init_texture_caps_again, h.2.1, h.2.2.1, hu, ht]
    have himg : init_texture_image lib (init_texture lib st) = init_texture_image lib st := by
      simp only [init_texture_image, hcall, hmesh]
    rw [himg]

/-! ## Ranges of the configuration parameters -/

/-- The parameters a pick or an edit may change, and the decal catalog. -/
theorem config_in_range_congr (a b : App) (h1 : b.m_projector_size = a.m_projector_size)
    (h2 : b.m_projector_rotation = a.m_projector_rotation)
    (h3 : b.m_selected_decal = a.m_selected_decal) (h : config_in_range a) :
    config_in_range b := by
  unfold config_in_range at h ⊢
  rw [h1, h2, h3]
  exact h

theorem DragFloat_mem (v : ℚ) (dragged : Option ℚ) (lo hi : ℚ) (hlh : lo ≤ hi)
    (hv : lo ≤ v ∧ v ≤ hi) :
    lo ≤ DragFloat v dragged lo hi ∧ DragFloat v dragged lo hi ≤ hi := by
  cases dragged with
  | none => exact hv
  | some x => exact ⟨le_max_left _ _, max_le hlh (min_le_right _ _)⟩

theorem ListBox_mem (cur : Int) (clicked : Option Int) (n : Int) (hc : 0 ≤ cur ∧ cur < n) :
    0 ≤ ListBox cur clicked n ∧ ListBox cur clicked n < n := by
  cases clicked with
  | none => exact hc
  | some i =>
    simp only [ListBox]
    split_ifs with h
    · exact h
    · exact hc

theorem update_transforms_config (lib : Lib) (camera : Camera) (st : App) :
    (update_transforms lib camera st).m_projector_size = st.m_projector_size
    ∧ (update_transforms lib camera st).m_projector_rotation = st.m_projector_rotation
    ∧ (update_transforms lib camera st).m_selected_decal = st.m_selected_decal
    ∧ (update_transforms lib camera st).m_decal_textures = st.m_decal_textures := by
  by_cases h : st.m_hit_distance = INFINITY <;> simp [update_transforms, h]

theorem debug_draw_config (st : App) :
    (debug_draw st).m_projector_size = st.m_projector_size
    ∧ (debug_draw st).m_projector_rotation = st.m_projector_rotation
    ∧ (debug_draw st).m_selected_decal = st.m_selected_decal
    ∧ (debug_draw st).m_decal_textures = st.m_decal_textures := by
  unfold debug_draw
  by_cases hd : st.m_hit_distance ≠ INFINITY
  · rw [if_pos hd]
    cases h1 : st.m_visualize_hit_point <;> cases h2 : st.m_visualize_projection_frustum <;>
      simp [log, h1, h2]
  · rw [if_neg hd]
    exact ⟨rfl, rfl, rfl, rfl⟩

theorem frame_tail_config (lib : Lib) (st : App) :
    (frame_tail lib st).m_projector_size = st.m_projector_size
    ∧ (frame_tail lib st).m_projector_rotation = st.m_projector_rotation
    ∧ (frame_tail lib st).m_selected_decal = st.m_selected_decal
    ∧ (frame_tail lib st).m_decal_textures = st.m_decal_textures := by
  simp only [frame_tail]
  have h := debug_draw_config
    (if (render_lit_scene lib st).m_visualize_albedo_map = true then
      visualize_albedo_map lib (render_lit_scene lib st) else render_lit_scene lib st)
  rw [h.1, h.2.1, h.2.2.1, h.2.2.2]
  split <;> exact ⟨rfl, rfl, rfl, rfl⟩

theorem decal_apply_cycle_config (lib : Lib) (st : App) :
    (decal_apply_cycle lib st).m_projector_size = st.m_projector_size
    ∧ (decal_apply_cycle lib st).m_projector_rotation = st.m_projector_rotation
    ∧ (decal_apply_cycle lib st).m_selected_decal = st.m_selected_decal
    ∧ (decal_apply_cycle lib st).m_decal_textures = st.m_decal_textures := by
  unfold decal_apply_cycle
  split <;> exact ⟨rfl, rfl, rfl, rfl⟩

theorem ui_config (lib : Lib) (inp : UiInput) (st : App) (h : config_in_range st) :
    config_in_range (ui lib inp st)
    ∧ (ui lib inp st).m_decal_textures = st.m_decal_textures := by
  obtain ⟨h1, h2, h3, h4, h5, h6⟩ := h
  have hr := DragFloat_mem st.m_projector_rotation inp.decal_rotation (-180) 180 (by norm_num)
    ⟨h3, h4⟩
  have hs := DragFloat_mem st.m_projector_size inp.decal_size (1 / 10) 20 (by norm_num) ⟨h1, h2⟩
  have hl := ListBox_mem st.m_selected_decal inp.selected_decal 4 ⟨h5, h6⟩
  simp only [ui]
  cases hrand : st.m_randomize_decals <;> cases hcl : inp.clear_texture
  · exact ⟨⟨hs.1, hs.2, hr.1, hr.2, hl.1, hl.2⟩, rfl⟩
  · exact ⟨⟨hs.1, hs.2, hr.1, hr.2, hl.1, hl.2⟩, rfl⟩
  · exact ⟨⟨h1, h2, h3, h4, h5, h6⟩, rfl⟩
  · exact ⟨⟨h1, h2, h3, h4, h5, h6⟩, rfl⟩

theorem frame_head_config (lib : Lib) (inp : UiInput) (st : App) (h : config_in_range st) :
    config_in_range (frame_head lib inp st)
    ∧ (frame_head lib inp st).m_decal_textures = st.m_decal_textures := by
  have hc : (update_camera lib st).m_projector_size = st.m_projector_size
      ∧ (update_camera lib st).m_projector_rotation = st.m_projector_rotation
      ∧ (update_camera lib st).m_selected_decal = st.m_selected_decal
      ∧ (update_camera lib st).m_decal_textures = st.m_decal_textures := by
    simp only [update_camera]
    exact update_transforms_config lib _ _
  have h0 : config_in_range (update_global_uniforms (update_camera lib st).m_global_uniforms
      (update_camera lib st)) :=
    config_in_range_congr st _ hc.1 hc.2.1 hc.2.2.1 h
  simp only [frame_head]
  split
  · exact ⟨(ui_config lib inp _ h0).1, (ui_config lib inp _ h0).2.trans hc.2.2.2⟩
  · exact ⟨h0, hc.2.2.2⟩

theorem update_config (lib : Lib) (inp : UiInput) (st : App) (h : config_in_range st) :
    config_in_range (update lib inp st)
    ∧ (update lib inp st).m_decal_textures = st.m_decal_textures := by
  have hh := frame_head_config lib inp st h
  have hc := decal_apply_cycle_config lib (frame_head lib inp st)
  have ht := frame_tail_config lib (decal_apply_cycle lib (frame_head lib inp st))
  rw [update_eq]
  refine ⟨config_in_range_congr (frame_head lib inp st) _ (ht.1.trans hc.1)
    (ht.2.1.trans hc.2.1) (ht.2.2.1.trans hc.2.2.1) hh.1, ?_⟩
  rw [ht.2.2.2, hc.2.2.2, hh.2]

theorem mouse_pressed_config (lib : Lib) (cursor : CursorPos) (rnd : RandomDraw) (code : Int)
    (st : App) (hr : rnd.in_range) (h : config_in_range st) :
    config_in_range (mouse_pressed lib cursor rnd code st)
    ∧ (mouse_pressed lib cursor rnd code st).m_decal_textures = st.m_decal_textures := by
  obtain ⟨r1, r2, r3, r4, r5, r6⟩ := hr
  have hnew : (1 : ℚ) / 10 ≤ rnd.scale ∧ rnd.scale ≤ 20 ∧ (-180 : ℚ) ≤ rnd.rotation
      ∧ rnd.rotation ≤ 180 ∧ 0 ≤ rnd.index ∧ rnd.index < 4 :=
    ⟨by linarith, r4, by linarith, by linarith, r1, by omega⟩
  have hblock : ∀ b : App, config_in_range b ∧ b.m_decal_textures = st.m_decal_textures →
      config_in_range (if code = GLFW_MOUSE_BUTTON_RIGHT then { b with m_mouse_look := true }
        else b)
      ∧ (if code = GLFW_MOUSE_BUTTON_RIGHT then { b with m_mouse_look := true }
        else b).m_decal_textures = st.m_decal_textures := by
    intro b hb
    split_ifs
    · exact hb
    · exact hb
  simp only [mouse_pressed]
  apply hblock
  by_cases hl : code = GLFW_MOUSE_BUTTON_LEFT
  · rw [if_pos hl]
    split
    · cases hrand : st.m_randomize_decals
      · refine ⟨?_, ?_⟩
        · simpa [config_in_range, hrand] using h
        · simp [hrand]
      · refine ⟨?_, ?_⟩
        · simpa [config_in_range, hrand] using hnew
        · simp [hrand]
    · exact ⟨h, rfl⟩
  · rw [if_neg hl]
    exact ⟨h, rfl⟩

theorem step_config (lib : Lib) (st : App) (c : Call) (hc : c.in_range)
    (h : config_in_range st) :
    config_in_range (step lib st c)
    ∧ (step lib st c).m_decal_textures = st.m_decal_textures := by
  cases c with
  | update inp => exact update_config lib inp st h
  | window_resized => exact ⟨h, rfl⟩
  | key_pressed code =>
    simp only [step, key_pressed]
    split_ifs <;> exact ⟨h, rfl⟩
  | key_released code =>
    simp only [step, key_released]
    split_ifs <;> exact ⟨h, rfl⟩
  | mouse_pressed cursor rnd code => exact mouse_pressed_config lib cursor rnd code st hc h
  | mouse_released code =>
    simp only [step, mouse_released]
    split_ifs <;> exact ⟨h, rfl⟩

theorem run_config (lib : Lib) (cs : List Call) :
    ∀ st : App, (∀ c ∈ cs, c.in_range) → config_in_range st →
      config_in_range (run lib st cs)
      ∧ (run lib st cs).m_decal_textures = st.m_decal_textures := by
  induction cs with
  | nil => intro st _ h; exact ⟨h, rfl⟩
  | cons c cs ih =>
    intro st hcs h
    have hs := step_config lib st c (hcs c (List.mem_cons_self c cs)) h
    have hr := ih (step lib st c) (fun d hd => hcs d (List.mem_cons_of_mem c hd)) hs.1
    exact ⟨hr.1, hr.2.trans hs.2⟩

theorem init_config (lib : Lib) (res : Loaded) (raw st0 : App)
    (hinit : init lib res (construct raw) = some st0) :
    config_in_range st0 ∧ st0.m_decal_textures = res.decals := by
  cases hs : res.shaders <;> cases hm : res.mesh <;> cases he : res.embree <;>
    simp only [init, hs, hm, he, Bool.not_true, Bool.not_false, if_true, if_false,
      Bool.false_eq_true, reduceCtorEq] at hinit
  simp only [Option.some.injEq] at hinit
  subst hinit
  refine ⟨?_, rfl⟩
  show (1 : ℚ) / 10 ≤ 10 ∧ (10 : ℚ) ≤ 20 ∧ (-180 : ℚ) ≤ 0 ∧ (0 : ℚ) ≤ 180
    ∧ (0 : Int) ≤ 0 ∧ (0 : Int) < 4
  norm_num

/-- Claim C12: from the state init leaves, after any sequence of framework calls
(frames with clamped ui edits, picks that hit or miss with randomize-on-pick on
or off and random draws taken from the three distributions, key and mouse
events, window resizes) the projector size is in [0.1, 20], the projector
rotation in [-180, 180] and the selected decal index in [0, 4); the decal
catalog is the one that was loaded, so with its four entries every lookup of
the selected decal is in bounds. -/
theorem config_stays_in_range (lib : Lib) (res : Loaded) (raw st0 : App) (cs : List Call)
    (hinit : init lib res (construct raw) = some st0)
    (hcs : ∀ c ∈ cs, c.in_range) :
    config_in_range (run lib st0 cs)
    ∧ (run lib st0 cs).m_decal_textures = res.decals
    ∧ (res.decals.length = 4 →
        0 ≤ (run lib st0 cs).m_selected_decal
        ∧ (run lib st0 cs).m_selected_decal.toNat < (run lib st0 cs).m_decal_textures.length) := by
  have hi := init_config lib res raw st0 hinit
  have hr := run_config lib cs st0 hcs hi.1
  refine ⟨hr.1, hr.2.trans hi.2, ?_⟩
  intro hlen
  rw [hr.2, hi.2, hlen]
  obtain ⟨_, _, _, _, h5, h6⟩ := hr.1
  exact ⟨h5, by omega⟩

/-- Witness of C12: randomize off, a click that hits, a frame, a size edit. -/
theorem config_stays_in_range_witness :
    init quad_lib quad_loaded (construct quad_raw) = some quad_app
    ∧ quad_draw.in_range
    ∧ quad_loaded.decals.length = 4
    ∧ config_in_range (run quad_lib quad_app
        [Call.update ui_randomize_click,
         Call.mouse_pressed cursor_hit quad_draw GLFW_MOUSE_BUTTON_LEFT,
         Call.update UiInput.idle,
         Call.update ui_size_5]) :=
  ⟨rfl, by norm_num [RandomDraw.in_range, quad_draw], rfl,
   (config_stays_in_range quad_lib quad_loaded quad_raw quad_app
      [Call.update ui_randomize_click,
       Call.mouse_pressed cursor_hit quad_draw GLFW_MOUSE_BUTTON_LEFT,
       Call.update UiInput.idle,
       Call.update ui_size_5] rfl
      (by
        intro c hc
        simp only [List.mem_cons, List.mem_singleton, List.not_mem_nil, or_false] at hc
        rcases hc with rfl | rfl | rfl | rfl <;>
          norm_num [Call.in_range, RandomDraw.in_range, quad_draw])).1⟩

/-! ## Hit normal -/

/-- Failing input of C13: the click at the bottom centre of the window hits the
floor at distance 5; Embree reports the geometric normal `(0, 2, 0)`.  The
handler stores that vector as it is: its squared length is 4, not 1, and the
projector is put 20 units from the hit point, not 10. -/
theorem hit_normal_not_unit :
    (floor_lib.rtcIntersect1 (pick_ray floor_lib cursor_floor quad_app)).ray.tfar
        = Float32.fin 5
    ∧ (mouse_pressed floor_lib cursor_floor quad_draw GLFW_MOUSE_BUTTON_LEFT quad_app).m_hit_pos
        = ⟨0, -5, 0⟩
    ∧ (mouse_pressed floor_lib cursor_floor quad_draw GLFW_MOUSE_BUTTON_LEFT
        quad_app).m_hit_normal = ⟨0, 2, 0⟩
    ∧ (mouse_pressed floor_lib cursor_floor quad_draw GLFW_MOUSE_BUTTON_LEFT
        quad_app).m_hit_normal.length_squared = 4
    ∧ (mouse_pressed floor_lib cursor_floor quad_draw GLFW_MOUSE_BUTTON_LEFT
        quad_app).m_hit_normal.length_squared ≠ 1
    ∧ (mouse_pressed floor_lib cursor_floor quad_draw GLFW_MOUSE_BUTTON_LEFT
        quad_app).m_projector_pos = ⟨0, 15, 0⟩ := by
  refine ⟨by decide!, by decide!, by decide!, by decide!, by decide!, by decide!⟩

/-! ## Conservative rasterization -/

/-- Failing input of C14: the conservative-rasterization setting is on and the
GPU offers the Intel extension only.  Both passes call glEnable with the name
of the extension, not with a capability: their draw calls run with
conservative rasterization off.  On a GPU with the NVIDIA extension the same
passes draw with it on and leave it off when they return. -/
theorem intel_path_enables_nothing :
    quad_app.m_enable_conservative_raster = true
    ∧ intel_lib.GLAD_GL_NV_conservative_raster = false
    ∧ intel_lib.GLAD_GL_INTEL_conservative_rasterization = true
    ∧ (init_texture intel_lib quad_app).gpu.m_albedo_texture.base.draws.map
        (fun d => (d.program, conservative_rasterization_on d.caps))
        = [(some Program.texture_init, false)]
    ∧ (apply_decals intel_lib quad_app).gpu.m_albedo_texture.base.draws.map
        (fun d => (d.program, conservative_rasterization_on d.caps))
        = [(some Program.texture_init, false), (some Program.decal, false)]
    ∧ (init_texture nv_lib quad_app).gpu.m_albedo_texture.base.draws.map
        (fun d => (d.program, conservative_rasterization_on d.caps))
        = [(some Program.texture_init, true)]
    ∧ (apply_decals nv_lib quad_app).gpu.m_albedo_texture.base.draws.map
        (fun d => (d.program, conservative_rasterization_on d.caps))
        = [(some Program.texture_init, false), (some Program.decal, true)]
    ∧ conservative_rasterization_on (init_texture nv_lib quad_app).gpu.caps = false
    ∧ conservative_rasterization_on (apply_decals nv_lib quad_app).gpu.caps = false := by
  refine ⟨by decide!, by decide!, by decide!, by decide!, by decide!, by decide!, by decide!,
    by decide!, by decide!⟩

/-! ## Pick ray -/

/-- Claim C15: for a window of width `w > 0` and height `h > 0` and a cursor at
`(x, y)` with `0 ≤ x ≤ w` and `0 ≤ y ≤ h`, the pick computes the normalized
device coordinates `(2x/w - 1, 1 - 2y/h, -1, 1)`: both components lie between
-1 and 1, the window centre maps to `(0, 0)`, the vertical axis is flipped
(`y = 0` gives 1, `y = h` gives -1) and the depth is -1; the ray handed to the
intersector starts at the camera position with `tnear = 0` and
`tfar = +infinity`. -/
theorem pick_ndc_bounds (lib : Lib) (cursor : CursorPos) (st : App)
    (hw : 0 < st.m_width) (hh : 0 < st.m_height)
    (hx0 : 0 ≤ cursor.xpos) (hx1 : cursor.xpos ≤ (st.m_width : ℚ))
    (hy0 : 0 ≤ cursor.ypos) (hy1 : cursor.ypos ≤ (st.m_height : ℚ)) :
    pick_ndc cursor st
        = ⟨2 * cursor.xpos / (st.m_width : ℚ) - 1, 1 - 2 * cursor.ypos / (st.m_height : ℚ),
           -1, 1⟩
    ∧ (-1 ≤ (pick_ndc cursor st).x ∧ (pick_ndc cursor st).x ≤ 1)
    ∧ (-1 ≤ (pick_ndc cursor st).y ∧ (pick_ndc cursor st).y ≤ 1)
    ∧ (cursor.xpos = (st.m_width : ℚ) / 2 → (pick_ndc cursor st).x = 0)
    ∧ (cursor.ypos = (st.m_height : ℚ) / 2 → (pick_ndc cursor st).y = 0)
    ∧ (cursor.ypos = 0 → (pick_ndc cursor st).y = 1)
    ∧ (cursor.ypos = (st.m_height : ℚ) → (pick_ndc cursor st).y = -1)
    ∧ (pick_ndc cursor st).z = -1
    ∧ (pick_ndc cursor st).w = 1
    ∧ Vec3.mk (pick_ray lib cursor st).org_x (pick_ray lib cursor st).org_y
        (pick_ray lib cursor st).org_z = st.m_main_camera.m_position
    ∧ (pick_ray lib cursor st).tnear = 0
    ∧ (pick_ray lib cursor st).tfar = INFINITY := by
  have hw' : (0 : ℚ) < (st.m_width : ℚ) := Nat.cast_pos.mpr hw
  have hh' : (0 : ℚ) < (st.m_height : ℚ) := Nat.cast_pos.mpr hh
  have hxw : 2 * cursor.xpos / (st.m_width : ℚ) ≤ 2 := by
    rw [div_le_iff₀ hw']; linarith
  have hxw0 : 0 ≤ 2 * cursor.xpos / (st.m_width : ℚ) := by positivity
  have hyh : 2 * cursor.ypos / (st.m_height : ℚ) ≤ 2 := by
    rw [div_le_iff₀ hh']; linarith
  have hyh0 : 0 ≤ 2 * cursor.ypos / (st.m_height : ℚ) := by positivity
  refine ⟨rfl, ⟨?_, ?_⟩, ⟨?_, ?_⟩, ?_, ?_, ?_, ?_, rfl, rfl, rfl, rfl, rfl⟩
  · show -1 ≤ 2 * cursor.xpos / (st.m_width : ℚ) - 1
    linarith
  · show 2 * cursor.xpos / (st.m_width : ℚ) - 1 ≤ 1
    linarith
  · show -1 ≤ 1 - 2 * cursor.ypos / (st.m_height : ℚ)
    linarith
  · show 1 - 2 * cursor.ypos / (st.m_height : ℚ) ≤ 1
    linarith
  · intro h
    show 2 * cursor.xpos / (st.m_width : ℚ) - 1 = 0
    rw [h]; field_simp
  · intro h
    show 1 - 2 * cursor.ypos / (st.m_height : ℚ) = 0
    rw [h]; field_simp
  · intro h
    show 1 - 2 * cursor.ypos / (st.m_height : ℚ) = 1
    rw [h]; simp
  · intro h
    show 1 - 2 * cursor.ypos / (st.m_height : ℚ) = -1
    rw [h]; field_simp; ring

/-- Witness of C15: the click in the middle of the 800 by 600 window. -/
theorem pick_ndc_bounds_witness :
    0 < quad_app.m_width ∧ 0 < quad_app.m_height
    ∧ cursor_hit.xpos = (quad_app.m_width : ℚ) / 2
    ∧ cursor_hit.ypos = (quad_app.m_height : ℚ) / 2
    ∧ (pick_ndc cursor_hit quad_app).x = 0
    ∧ (pick_ndc cursor_hit quad_app).y = 0 :=
  ⟨by decide!, by decide!, by decide!, by decide!,
   (pick_ndc_bounds quad_lib cursor_hit quad_app (by decide!) (by decide!) (by decide!)
      (by decide!) (by decide!) (by decide!)).2.2.2.1 (by decide!),
   (pick_ndc_bounds quad_lib cursor_hit quad_app (by decide!) (by decide!) (by decide!)
      (by decide!) (by decide!) (by decide!)).2.2.2.2.1 (by decide!)⟩

/-! ## Index buffer of the intersector -/

theorem set_append_replicate (pre : List Nat) (m x : Nat) :
    (pre ++ List.replicate (m + 1) 0).set pre.length x = (pre ++ [x]) ++ List.replicate m 0 := by
  induction pre with
  | nil => simp [List.replicate_succ]
  | cons a pre ih => simpa using ih

/-- The inner loop of initialize_embree writes the rebased index range behind
what was written before and advances `idx` by the index count. -/
theorem write_range (index_ptr : List Nat) (base_vertex : Nat) :
    ∀ (k j m : Nat) (pre : List Nat), j + k ≤ index_ptr.length → k ≤ m →
      index_ptr.length ≤ INT_MAX + 1 →
      (List.range' j k).foldlM (write_index index_ptr base_vertex)
          (pre ++ List.replicate m 0, pre.length)
        = some (pre ++ ((index_ptr.drop j).take k).map (fun v => (base_vertex + v) % UINT32_SIZE)
            ++ List.replicate (m - k) 0, pre.length + k) := by
  intro k
  induction k with
  | zero => intro j m pre _ _ _; simp
  | succ k ih =>
    intro j m pre hj hm hw
    obtain ⟨m', rfl⟩ : ∃ m', m = m' + 1 := ⟨m - 1, by omega⟩
    have hjl : j < index_ptr.length := by omega
    have hstep : write_index index_ptr base_vertex (pre ++ List.replicate (m' + 1) 0, pre.length) j
        = some ((pre ++ [(base_vertex + index_ptr[j]) % UINT32_SIZE]) ++ List.replicate m' 0,
            (pre ++ [(base_vertex + index_ptr[j]) % UINT32_SIZE]).length) := by
      simp only [write_index, List.getElem?_eq_getElem hjl]
      rw [if_neg (by omega), if_pos (by simp)]
      rw [set_append_replicate]
      simp
    have hdrop : (index_ptr.drop j).take (k + 1)
        = index_ptr[j] :: (index_ptr.drop (j + 1)).take k := by
      rw [List.drop_eq_getElem_cons hjl, List.take_succ_cons]
    rw [List.range'_succ, List.foldlM_cons, hstep]
    simp only [Option.bind_eq_bind, Option.some_bind]
    rw [ih (j + 1) m' _ (by omega) (by omega) hw, hdrop]
    simp [Nat.add_assoc, Nat.add_comm 1 k]

theorem length_rebased_range (index_ptr : List Nat) (submesh : SubMesh)
    (h : submesh.base_index + submesh.index_count ≤ index_ptr.length) :
    (rebased_range index_ptr submesh).length = submesh.index_count := by
  simp [rebased_range]; omega

theorem length_concatenated_indices (index_ptr : List Nat) (sub_meshes : List SubMesh)
    (h : ∀ submesh ∈ sub_meshes, submesh.base_index + submesh.index_count ≤ index_ptr.length) :
    (concatenated_indices index_ptr sub_meshes).length = total_index_count sub_meshes := by
  induction sub_meshes with
  | nil => rfl
  | cons a l ih =>
    simp only [concatenated_indices, total_index_count, List.foldr_cons, List.length_append]
    rw [length_rebased_range index_ptr a (h a (List.mem_cons_self a l))]
    have := ih (fun s hs => h s (List.mem_cons_of_mem a hs))
    simp only [concatenated_indices, total_index_count] at this
    rw [this]

/-- The outer loop of initialize_embree. -/
theorem write_submeshes (index_ptr : List Nat) :
    ∀ (sub_meshes : List SubMesh) (m : Nat) (pre : List Nat),
      (∀ submesh ∈ sub_meshes, submesh.base_index + submesh.index_count ≤ index_ptr.length) →
      total_index_count sub_meshes ≤ m → index_ptr.length ≤ INT_MAX + 1 →
      sub_meshes.foldlM
          (fun s submesh =>
            (List.range' submesh.base_index submesh.index_count).foldlM
              (write_index index_ptr submesh.base_vertex) s)
          (pre ++ List.replicate m 0, pre.length)
        = some (pre ++ concatenated_indices index_ptr sub_meshes
            ++ List.replicate (m - total_index_count sub_meshes) 0,
            pre.length + total_index_count sub_meshes) := by
  intro sub_meshes
  induction sub_meshes with
  | nil => intro m pre _ _ _; simp [concatenated_indices, total_index_count]
  | cons a l ih =>
    intro m pre hr hm hw
    have ha := hr a (List.mem_cons_self a l)
    have hl : ∀ submesh ∈ l, submesh.base_index + submesh.index_count ≤ index_ptr.length :=
      fun s hs => hr s (List.mem_cons_of_mem a hs)
    have htot : total_index_count (a :: l) = a.index_count + total_index_count l := rfl
    rw [htot] at hm
    rw [List.foldlM_cons, write_range index_ptr a.base_vertex a.index_count a.base_index m pre ha
      (by omega) hw]
    simp only [Option.bind_eq_bind, Option.some_bind]
    have hlen : pre.length + a.index_count
        = (pre ++ rebased_range index_ptr a).length := by
      rw [List.length_append, length_rebased_range index_ptr a ha]
    have hih := ih (m - a.index_count) (pre ++ rebased_range index_ptr a) hl (by omega) hw
    have e1 : m - a.index_count - total_index_count l
        = m - (a.index_count + total_index_count l) := by omega
    have e2 : (pre ++ rebased_range index_ptr a).length + total_index_count l
        = pre.length + (a.index_count + total_index_count l) := by
      rw [← hlen]; omega
    rw [hlen]
    show List.foldlM _ (pre ++ rebased_range index_ptr a ++ List.replicate (m - a.index_count) 0,
      (pre ++ rebased_range index_ptr a).length) l = _
    rw [hih, e1, e2]
    simp [concatenated_indices, htot]

/-- Claim C16: for a mesh whose submesh ranges lie inside its index array and whose
index counts sum to at most its index count (an array of fewer than 2^31
elements), the loops of initialize_embree end without a read or write outside
an array; `indices` then holds the concatenation, in submesh order, of each
submesh's index range with its `base_vertex` added, followed by the zeros left
from its construction; `idx`, the number of entries written, is the sum of the
index counts; and when every `base_vertex + index` is below the vertex count,
every written entry is the index of an existing vertex. -/
theorem fill_indices_concatenation (mesh : Mesh)
    (hrange : ∀ submesh ∈ mesh.sub_meshes,
      submesh.base_index + submesh.index_count ≤ mesh.indices.length)
    (hsum : total_index_count mesh.sub_meshes ≤ mesh.indices.length)
    (hwidth : mesh.indices.length < 2 ^ 31) :
    fill_indices mesh
        = some (concatenated_indices mesh.indices mesh.sub_meshes
            ++ List.replicate (mesh.indices.length - total_index_count mesh.sub_meshes) 0,
            total_index_count mesh.sub_meshes)
    ∧ (concatenated_indices mesh.indices mesh.sub_meshes).length
        = total_index_count mesh.sub_meshes
    ∧ (concatenated_indices mesh.indices mesh.sub_meshes
        ++ List.replicate (mesh.indices.length - total_index_count mesh.sub_meshes) 0).length
        = mesh.indices.length
    ∧ ((∀ submesh ∈ mesh.sub_meshes,
          ∀ v ∈ (mesh.indices.drop submesh.base_index).take submesh.index_count,
            submesh.base_vertex + v < mesh.vertices.length) →
        ∀ e ∈ concatenated_indices mesh.indices mesh.sub_meshes, e < mesh.vertices.length) := by
  have hlen := length_concatenated_indices mesh.indices mesh.sub_meshes hrange
  refine ⟨?_, hlen, ?_, ?_⟩
  · have h := write_submeshes mesh.indices mesh.sub_meshes mesh.indices.length [] hrange hsum
      (by simp only [INT_MAX]; omega)
    simpa [fill_indices] using h
  · rw [List.length_append, hlen, List.length_replicate]
    omega
  · intro hv
    generalize mesh.sub_meshes = l at hv
    induction l with
    | nil => intro e he; simp [concatenated_indices] at he
    | cons a l ih =>
      intro e he
      simp only [concatenated_indices, List.foldr_cons, List.mem_append] at he
      rcases he with he | he
      · simp only [rebased_range, List.mem_map] at he
        obtain ⟨v, hvm, rfl⟩ := he
        exact lt_of_le_of_lt (Nat.mod_le _ _) (hv a (List.mem_cons_self a l) v hvm)
      · exact ih (fun s hs => hv s (List.mem_cons_of_mem a hs)) e he

/-- Witness of C16: the quad, one submesh of six indices over four vertices. -/
theorem fill_indices_concatenation_witness :
    (∀ submesh ∈ quad_mesh.sub_meshes,
      submesh.base_index + submesh.index_count ≤ quad_mesh.indices.length)
    ∧ total_index_count quad_mesh.sub_meshes ≤ quad_mesh.indices.length
    ∧ quad_mesh.indices.length < 2 ^ 31
    ∧ fill_indices quad_mesh = some ([0, 1, 2, 0, 2, 3], 6) :=
  ⟨by decide, by decide, by decide,
   (fill_indices_concatenation quad_mesh (by decide) (by decide) (by decide)).1.trans
     (by decide)⟩

/-! ## Size of the index buffer -/

/-- Claim C17: initialize_embree asks for an index buffer of `n / 3` triangles of
`3 * 4` bytes and copies `n * 4` bytes into it, `n` being the index count of the
mesh.  For every `n` the copy fits exactly when `n` is a multiple of 3, and
otherwise it is `4 * (n mod 3)` bytes longer than the buffer. -/
theorem index_copy_overrun (n : Nat) :
    index_buffer_bytes n = 12 * (n / 3)
    ∧ index_copy_bytes n = 4 * n
    ∧ (index_copy_bytes n ≤ index_buffer_bytes n ↔ n % 3 = 0)
    ∧ index_copy_bytes n = index_buffer_bytes n + 4 * (n % 3) := by
  have hdiv := Nat.div_add_mod n 3
  simp only [index_buffer_bytes, index_copy_bytes, SIZEOF_UINT32]
  refine ⟨by norm_num, by ring, ?_, ?_⟩ <;> omega

/-! ## Projector on a surface facing the world Y axis -/

theorem unit_sq (a : ℚ) (ha : a ≠ 0) : a / |a| * (a / |a|) = 1 := by
  have h : |a| ≠ 0 := abs_ne_zero.mpr ha
  rw [div_mul_div_comm, abs_mul_abs_self, div_self (mul_ne_zero ha ha)]

/-- The up reference when the projector looks along the world Y axis. -/
theorem projector_up_y_axis (lib : Lib) (st : App) (a : ℚ) (ha : a ≠ 0)
    (hdir : st.m_projector_dir = ⟨0, a, 0⟩)
    (hnorm : ∀ b : ℚ, b ≠ 0 → lib.normalize ⟨0, b, 0⟩ = ⟨0, b / |b|, 0⟩) :
    projector_up lib st = ⟨0, 1, 0⟩ := by
  have hs := unit_sq a ha
  simp only [projector_up, glm_rotate, hdir, hnorm a ha, Mat4.identity, Mat4.mulVec, Vec4.scale,
    Vec4.add, Vec4.xyz, Vec3.scale]
  congr 1
  · ring
  · linear_combination (1 - lib.cos (lib.radians st.m_projector_rotation)) * hs
  · ring

theorem update_transforms_view (lib : Lib) (camera : Camera) (st : App) :
    (update_transforms lib camera st).m_projector_view
      = glm_lookAt lib st.m_projector_pos st.m_hit_pos (projector_up lib st) :=
  (update_transforms_spec lib camera st).1

/-- Claim C18: after a hit whose normal is `(0, c, 0)` with `c ≠ 0`, for every
rotation angle the up reference computed in update_transforms is `(0, 1, 0)`;
its cross product with the projector direction, and with the normalized
viewing direction glm::lookAt works with, is the zero vector; and the view
matrix update_transforms builds is the same for every rotation angle.  The
library's normalize is assumed exact on the world Y axis. -/
theorem y_axis_hit_degenerate (lib : Lib) (cursor : CursorPos) (rnd : RandomDraw) (st : App)
    (t c : ℚ)
    (hhit : (lib.rtcIntersect1 (pick_ray lib cursor st)).ray.tfar = Float32.fin t)
    (hx : (lib.rtcIntersect1 (pick_ray lib cursor st)).hit.Ng_x = 0)
    (hy : (lib.rtcIntersect1 (pick_ray lib cursor st)).hit.Ng_y = c)
    (hz : (lib.rtcIntersect1 (pick_ray lib cursor st)).hit.Ng_z = 0)
    (hc : c ≠ 0)
    (hnorm : ∀ b : ℚ, b ≠ 0 → lib.normalize ⟨0, b, 0⟩ = ⟨0, b / |b|, 0⟩) :
    (mouse_pressed lib cursor rnd GLFW_MOUSE_BUTTON_LEFT st).m_hit_normal = ⟨0, c, 0⟩
    ∧ ∀ (r : ℚ) (camera : Camera),
        projector_up lib
            { mouse_pressed lib cursor rnd GLFW_MOUSE_BUTTON_LEFT st with
              m_projector_rotation := r } = ⟨0, 1, 0⟩
        ∧ (mouse_pressed lib cursor rnd GLFW_MOUSE_BUTTON_LEFT st).m_projector_dir.cross
            (projector_up lib
              { mouse_pressed lib cursor rnd GLFW_MOUSE_BUTTON_LEFT st with
                m_projector_rotation := r }) = ⟨0, 0, 0⟩
        ∧ (lib.normalize
            ((mouse_pressed lib cursor rnd GLFW_MOUSE_BUTTON_LEFT st).m_hit_pos.sub
              (mouse_pressed lib cursor rnd GLFW_MOUSE_BUTTON_LEFT st).m_projector_pos)).cross
            (projector_up lib
              { mouse_pressed lib cursor rnd GLFW_MOUSE_BUTTON_LEFT st with
                m_projector_rotation := r }) = ⟨0, 0, 0⟩
        ∧ (update_transforms lib camera
            { mouse_pressed lib cursor rnd GLFW_MOUSE_BUTTON_LEFT st with
              m_projector_rotation := r }).m_projector_view
          = (update_transforms lib camera
              (mouse_pressed lib cursor rnd GLFW_MOUSE_BUTTON_LEFT st)).m_projector_view := by
  have f := mouse_pressed_hit_fields lib cursor rnd st t hhit
  have hn : (mouse_pressed lib cursor rnd GLFW_MOUSE_BUTTON_LEFT st).m_hit_normal = ⟨0, c, 0⟩ := by
    rw [f.2.1, hx, hy, hz]
  have hdir : (mouse_pressed lib cursor rnd GLFW_MOUSE_BUTTON_LEFT st).m_projector_dir
      = ⟨0, -c, 0⟩ := by
    rw [f.2.2.2.2.2.2.2.2.2.2, hx, hy, hz]
    simp [Vec3.neg]
  have hview : (mouse_pressed lib cursor rnd GLFW_MOUSE_BUTTON_LEFT st).m_hit_pos.sub
      (mouse_pressed lib cursor rnd GLFW_MOUSE_BUTTON_LEFT st).m_projector_pos
      = ⟨0, -(c * 10), 0⟩ := by
    rw [f.2.2.2.2.2.2.2.2.2.1, f.1, hx, hy, hz]
    simp [Vec3.sub, Vec3.add, Vec3.scale]
  have hc' : -c ≠ 0 := neg_ne_zero.mpr hc
  have hc10 : -(c * 10) ≠ 0 := neg_ne_zero.mpr (mul_ne_zero hc (by norm_num))
  have hup : ∀ r : ℚ, projector_up lib
      { mouse_pressed lib cursor rnd GLFW_MOUSE_BUTTON_LEFT st with
        m_projector_rotation := r } = ⟨0, 1, 0⟩ :=
    fun r => projector_up_y_axis lib _ (-c) hc' hdir hnorm
  have hup0 : projector_up lib (mouse_pressed lib cursor rnd GLFW_MOUSE_BUTTON_LEFT st)
      = ⟨0, 1, 0⟩ := projector_up_y_axis lib _ (-c) hc' hdir hnorm
  refine ⟨hn, fun r camera => ⟨hup r, ?_, ?_, ?_⟩⟩
  · rw [hup r, hdir]
    simp [Vec3.cross]
  · rw [hup r, hview, hnorm _ hc10]
    simp [Vec3.cross]
  · rw [update_transforms_view, update_transforms_view, hup r, hup0]

/-- Witness of C18: the click on the floor, whose normal is `(0, 2, 0)`. -/
theorem y_axis_hit_degenerate_witness :
    (floor_lib.rtcIntersect1 (pick_ray floor_lib cursor_floor quad_app)).ray.tfar
        = Float32.fin 5
    ∧ (floor_lib.rtcIntersect1 (pick_ray floor_lib cursor_floor quad_app)).hit.Ng_y = 2
    ∧ (∀ b : ℚ, b ≠ 0 → floor_lib.normalize ⟨0, b, 0⟩ = ⟨0, b / |b|, 0⟩)
    ∧ projector_up floor_lib
        { mouse_pressed floor_lib cursor_floor quad_draw GLFW_MOUSE_BUTTON_LEFT quad_app with
          m_projector_rotation := 30 } = ⟨0, 1, 0⟩ :=
  ⟨by decide!, by decide!,
   fun b hb => by simp [floor_lib, axis_normalize, hb],
   ((y_axis_hit_degenerate floor_lib cursor_floor quad_draw quad_app 5 2 (by decide!)
      (by decide!) (by decide!) (by decide!) (by decide!)
      (fun b hb => by simp [floor_lib, axis_normalize, hb])).2 30 quad_camera).1⟩

end TextureSpaceDecals
